import Mathlib

/-!
# SpotifyDash room/game coordination layer — verification development

Shallow embedding of the server-side room registry, game lifecycle controller and
answer aggregator (`roomController.ts`, `gameController.ts`, `gameSocket.ts`) and of
the client socket manager (`socketManager.ts`), together with theorems settling the
frozen specification claims.

The persistent store (Prisma over a relational database) is modelled as explicit
lists of rows; every HTTP/socket handler becomes a pure function from the store and
the request arguments to a response and an updated store.  `await` suspension points
that matter for interleaving (read-side checks vs. write-side commits) are modelled
by splitting the handler into a `...Check` and a `...Commit`/`...Resume` phase.
JavaScript falsiness of required string fields is modelled as equality with `""`;
`undefined`/`null` database fields are `Option`.
-/

namespace SpotifyDash

/-- Room lifecycle status (`status` column of `Room`). -/
inductive RoomStatus
  | WAITING
  | STARTING
  | IN_GAME
  | FINISHED
deriving Repr, DecidableEq

/-- Game lifecycle status (`status` column of `Game`). -/
inductive GameStatus
  | STARTING
  | IN_PROGRESS
  | PAUSED
  | FINISHED
deriving Repr, DecidableEq

/-- A `Room` row.  `questionsCount` models `(settings as any)?.questionsCount`. -/
structure Room where
  id : String
  code : String
  hostId : String
  status : RoomStatus
  isActive : Bool
  maxPlayers : Nat
  questionsCount : Option Nat
deriving Repr, DecidableEq

/-- A `RoomPlayer` (membership) row.  `musicData` is the shared music payload
(`none` = SQL `NULL`); the reconnection credentials and `lastActiveAt` are the
fields used by the reconnection flow. -/
structure RoomPlayer where
  id : String
  roomId : String
  spotifyId : String
  displayName : String
  imageUrl : Option String
  isHost : Bool
  isReady : Bool
  musicData : Option String
  reconnectionToken : Option String
  deviceId : Option String
  lastActiveAt : Nat
deriving Repr, DecidableEq

/-- A `Game` row. -/
structure Game where
  id : String
  roomId : String
  status : GameStatus
  totalQuestions : Nat
  currentQuestion : Nat
deriving Repr, DecidableEq

/-- A `GameScore` row, keyed by the composite unique key `(gameId, playerId)`. -/
structure GameScore where
  gameId : String
  playerId : String
  totalScore : Nat
  correctAnswers : Nat
  totalAnswers : Nat
  averageTime : Nat
deriving Repr, DecidableEq

/-- A `GameAnswer` row, keyed by the composite unique key
`(gameId, playerId, questionNumber)`. -/
structure GameAnswer where
  id : String
  gameId : String
  playerId : String
  questionNumber : Nat
  selectedAnswer : Int
  isCorrect : Bool
  responseTime : Nat
deriving Repr, DecidableEq

/-- The persistent store: the five Prisma tables as row lists (insertion order). -/
structure Store where
  rooms : List Room
  players : List RoomPlayer
  games : List Game
  scores : List GameScore
  answers : List GameAnswer
deriving Repr, DecidableEq

/-- `prisma.room.findUnique({ where: { code } })`. -/
def Store.findRoom (s : Store) (code : String) : Option Room :=
  s.rooms.find? (fun r => r.code == code)

/-- `prisma.game.findUnique({ where: { id } })`. -/
def Store.findGame (s : Store) (gameId : String) : Option Game :=
  s.games.find? (fun g => g.id == gameId)

/-- The `players` relation of a room (`include: { players: true }`). -/
def Store.roomPlayers (s : Store) (roomId : String) : List RoomPlayer :=
  s.players.filter (fun p => p.roomId == roomId)

/-- The game statuses the controllers treat as "active" (non-FINISHED):
`{ status: { in: ['STARTING', 'IN_PROGRESS', 'PAUSED'] } }`. -/
def activeGameStatuses : List GameStatus := [.STARTING, .IN_PROGRESS, .PAUSED]

/-- The `games` relation of a room filtered to active (non-FINISHED) games. -/
def Store.activeGames (s : Store) (roomId : String) : List Game :=
  s.games.filter (fun g => g.roomId == roomId && activeGameStatuses.contains g.status)

/-- The answer rows of a game for one question
(`answers: { where: { questionNumber } }`). -/
def Store.gameAnswers (s : Store) (gameId : String) (questionNumber : Nat) :
    List GameAnswer :=
  s.answers.filter (fun a => a.gameId == gameId && a.questionNumber == questionNumber)

/-- `prisma.gameAnswer.findUnique({ where: { gameId_playerId_questionNumber } })`. -/
def Store.findAnswer (s : Store) (gameId playerId : String) (questionNumber : Nat) :
    Option GameAnswer :=
  s.answers.find? (fun a =>
    a.gameId == gameId && a.playerId == playerId && a.questionNumber == questionNumber)

/-- `prisma.gameScore.findUnique`-style lookup by `(gameId, playerId)`. -/
def Store.findScore (s : Store) (gameId playerId : String) : Option GameScore :=
  s.scores.find? (fun sc => sc.gameId == gameId && sc.playerId == playerId)

/-- JavaScript `code.toUpperCase()` on a room code: structural version of
`String.toUpper` (same result character-wise, but kernel-reducible, since
`String.mapAux` recurses by well-founded recursion). -/
def jsToUpper (s : String) : String := String.mk (s.data.map Char.toUpper)

/-! ## Room Registry: `POST /api/rooms/:code/join` (roomController.ts) -/

/-- Response of the join endpoint.  `rejoined` carries the existing membership id
and whether the "Rejoined game in progress" message was chosen (room IN_GAME);
`joined` carries the freshly created membership id. -/
inductive JoinRes
  | missingFields
  | roomNotFound
  | roomInactive
  | rejoined (playerId : String) (inGameMessage : Bool)
  | gameInProgress
  | roomFull
  | joined (playerId : String)
deriving Repr, DecidableEq

/-- HTTP status code of a join response. -/
def JoinRes.statusCode : JoinRes → Nat
  | .missingFields => 400
  | .roomNotFound => 404
  | .roomInactive => 410
  | .rejoined _ _ => 200
  | .gameInProgress => 409
  | .roomFull => 409
  | .joined _ => 200

/-- `POST /:code/join`: validates fields, looks the room up by upper-cased code,
rejects inactive rooms, treats an existing membership as an idempotent rejoin
(before any status/full check), and otherwise admits a new non-host, not-ready
member while the room is WAITING and not full.  `newPlayerId` stands for the id
the store mints for a created row. -/
def joinRoom (s : Store) (code spotifyId displayName : String) (imageUrl : Option String)
    (newPlayerId : String) : JoinRes × Store :=
  if spotifyId = "" ∨ displayName = "" then (.missingFields, s)
  else
    match s.findRoom (jsToUpper code) with
    | none => (.roomNotFound, s)
    | some room =>
      if !room.isActive then (.roomInactive, s)
      else
        let players := s.roomPlayers room.id
        match players.find? (fun p => p.spotifyId == spotifyId) with
        | some existing => (.rejoined existing.id (room.status == .IN_GAME), s)
        | none =>
          if room.status = .IN_GAME ∨ room.status = .STARTING then (.gameInProgress, s)
          else if room.maxPlayers ≤ players.length then (.roomFull, s)
          else
            let p : RoomPlayer :=
              { id := newPlayerId, roomId := room.id, spotifyId := spotifyId,
                displayName := displayName, imageUrl := imageUrl, isHost := false,
                isReady := false, musicData := none, reconnectionToken := none,
                deviceId := none, lastActiveAt := 0 }
            (.joined newPlayerId, { s with players := s.players ++ [p] })

/-! ## Room Registry: `DELETE /api/rooms/:code/leave` (roomController.ts) -/

/-- Response of the leave endpoint. -/
inductive LeaveRes
  | missingSpotifyId
  | roomNotFound
  | playerNotInRoom
  | success
deriving Repr, DecidableEq

/-- `DELETE /:code/leave`: a leaving host soft-deletes the room
(`isActive := false`, `status := FINISHED`, no membership deleted); a leaving
non-host has exactly their own membership row deleted. -/
def leaveRoom (s : Store) (code spotifyId : String) : LeaveRes × Store :=
  if spotifyId = "" then (.missingSpotifyId, s)
  else
    match s.findRoom (jsToUpper code) with
    | none => (.roomNotFound, s)
    | some room =>
      match (s.roomPlayers room.id).find? (fun p => p.spotifyId == spotifyId) with
      | none => (.playerNotInRoom, s)
      | some player =>
        if player.isHost then
          (.success,
            { s with rooms := s.rooms.map (fun r =>
                if r.id == room.id then { r with isActive := false, status := .FINISHED }
                else r) })
        else
          (.success, { s with players := s.players.filter (fun p => !(p.id == player.id)) })

/-! ## Room Registry: code generation and `POST /api/rooms/` (roomController.ts) -/

/-- The alphabet used by the code generator: `'ABCDEFGHIJKLMNOPQRSTUVWXYZ'`. -/
def roomCodeChars : List Char := "ABCDEFGHIJKLMNOPQRSTUVWXYZ".toList

/-- One `chars.charAt(Math.floor(Math.random() * chars.length))` draw. -/
def roomCodeChar (i : Fin 26) : Char := roomCodeChars.getD i.val 'A'

/-- The 4-character code produced on attempt `attempt`, with the stream of random
draws modelled as the function `rand` (draw `4*attempt + i` is character `i`). -/
def genCode (rand : Nat → Fin 26) (attempt : Nat) : String :=
  String.mk ((List.range 4).map (fun i => roomCodeChar (rand (4 * attempt + i))))

/-- Bound of the retry loop in `generateUniqueRoomCode` (`maxAttempts = 50`). -/
def maxAttempts : Nat := 50

/-- The retry loop body: generate, ask the store (`existing` is the list of codes
currently assigned to rooms), return on a fresh code, retry on collision, give up
(`none`, modelling the thrown error) when the fuel runs out. -/
def generateUniqueRoomCodeAux (existing : List String) (rand : Nat → Fin 26) :
    Nat → Nat → Option String
  | 0, _ => none
  | fuel + 1, attempt =>
    let code := genCode rand attempt
    if existing.contains code then generateUniqueRoomCodeAux existing rand fuel (attempt + 1)
    else some code

/-- Translation of `generateUniqueRoomCode`: bounded retry (50 attempts) of
generate-then-check; `none` models the `Failed to generate unique room code`
exception. -/
def generateUniqueRoomCode (existing : List String) (rand : Nat → Fin 26) : Option String :=
  generateUniqueRoomCodeAux existing rand maxAttempts 0

/-- Response of the create endpoint.  `codeGenerationExhausted` is the branch of
the catch handler matching the `Failed to generate unique room code` message
(surfaced as HTTP 503 `Service temporarily unavailable - please try again`). -/
inductive CreateRes
  | missingFields
  | created (roomId : String) (code : String) (hostPlayerId : String)
  | codeGenerationExhausted
deriving Repr, DecidableEq

/-- HTTP status code of a create response (503 marks the retryable failure). -/
def CreateRes.statusCode : CreateRes → Nat
  | .missingFields => 400
  | .created _ _ _ => 200
  | .codeGenerationExhausted => 503

/-- Maximum players of a freshly created room.  The Prisma schema (not under
src/) supplies the column default; the concrete value is irrelevant to every
claim, it only has to admit at least two members. -/
def defaultMaxPlayers : Nat := 8

/-- Handler for `POST /` (create room): generates a unique code, then atomically
creates the room (WAITING, active) and its host membership (`isHost = true`,
`isReady = true`).  `newRoomId`/`newPlayerId` stand for the ids the store mints. -/
def createRoom (s : Store) (spotifyId displayName : String) (imageUrl : Option String)
    (rand : Nat → Fin 26) (newRoomId newPlayerId : String) : CreateRes × Store :=
  if spotifyId = "" ∨ displayName = "" then (.missingFields, s)
  else
    match generateUniqueRoomCode (s.rooms.map (fun r => r.code)) rand with
    | none => (.codeGenerationExhausted, s)
    | some code =>
      let room : Room :=
        { id := newRoomId, code := code, hostId := spotifyId, status := .WAITING,
          isActive := true, maxPlayers := defaultMaxPlayers, questionsCount := none }
      let host : RoomPlayer :=
        { id := newPlayerId, roomId := newRoomId, spotifyId := spotifyId,
          displayName := displayName, imageUrl := imageUrl, isHost := true,
          isReady := true, musicData := none, reconnectionToken := none,
          deviceId := none, lastActiveAt := 0 }
      (.created newRoomId code newPlayerId,
        { s with rooms := s.rooms ++ [room], players := s.players ++ [host] })

/-! ## Room Registry: `POST /api/rooms/:code/share-data` (roomController.ts) -/

/-- Response of the share-data endpoint.  `playerNotFound` models the Prisma
update on a missing `(roomId, spotifyId)` row throwing (caught as a 500). -/
inductive ShareRes
  | missingFields
  | roomNotFound
  | playerNotFound
  | success (playerId : String)
deriving Repr, DecidableEq

/-- Handler for `POST /:code/share-data`: attaches the music payload to the
membership row and sets `isReady := true`. -/
def shareMusicData (s : Store) (code spotifyId musicData : String) : ShareRes × Store :=
  if spotifyId = "" ∨ musicData = "" then (.missingFields, s)
  else
    match s.findRoom (jsToUpper code) with
    | none => (.roomNotFound, s)
    | some room =>
      match (s.roomPlayers room.id).find? (fun p => p.spotifyId == spotifyId) with
      | none => (.playerNotFound, s)
      | some player =>
        (.success player.id,
          { s with players := s.players.map (fun p =>
              if p.roomId == room.id && p.spotifyId == spotifyId then
                { p with musicData := some musicData, isReady := true }
              else p) })

/-! ## Game Lifecycle Controller: `POST /api/games/start` (gameController.ts)

The handler reads the room (with members and active games) in one query, runs its
checks on that snapshot, and only then opens the transaction that flips the room
to IN_GAME, creates the Game row and seeds the Score rows.  The read and the
transaction are separated by `await` suspension points, so they are modelled as
two phases: `startGameCheck` (everything up to and including the checks) and
`startGameCommit` (the transaction, applied to whatever store is current when it
runs, but using the member snapshot taken by the check). -/

/-- Error responses of the start endpoint. -/
inductive StartErr
  | missingFields
  | roomNotFound
  | notHost
  | gameAlreadyActive
  | playersNotReady
  | insufficientPlayers
deriving Repr, DecidableEq

/-- HTTP status code of a start error. -/
def StartErr.statusCode : StartErr → Nat
  | .missingFields => 400
  | .roomNotFound => 404
  | .notHost => 403
  | .gameAlreadyActive => 409
  | .playersNotReady => 409
  | .insufficientPlayers => 409

/-- Response of the start endpoint. -/
inductive StartRes
  | err (e : StartErr)
  | started (gameId : String) (totalQuestions : Nat)
deriving Repr, DecidableEq

/-- Whether a start response is the success response. -/
def StartRes.isStarted : StartRes → Bool
  | .err _ => false
  | .started _ _ => true

/-- Read phase of `POST /start`: field validation, room lookup, host check,
already-active-game check (`status in ['STARTING','IN_PROGRESS','PAUSED']`),
readiness check (`!p.isReady || !p.musicData`), and minimum player count (2).
Returns the room and the member snapshot the transaction will use. -/
def startGameCheck (s : Store) (roomCode hostSpotifyId : String) :
    Except StartErr (Room × List RoomPlayer) :=
  if roomCode = "" ∨ hostSpotifyId = "" then .error .missingFields
  else
    match s.findRoom (jsToUpper roomCode) with
    | none => .error .roomNotFound
    | some room =>
      let players := s.roomPlayers room.id
      if ((players.find? (fun p => p.spotifyId == hostSpotifyId && p.isHost)).isNone) then
        .error .notHost
      else if 0 < (s.activeGames room.id).length then .error .gameAlreadyActive
      else if 0 < (players.filter (fun p => !p.isReady || p.musicData.isNone)).length then
        .error .playersNotReady
      else if players.length < 2 then .error .insufficientPlayers
      else .ok (room, players)

/-- Write phase of `POST /start` (the `$transaction`): set the room status to
IN_GAME, create the Game row (status STARTING, `totalQuestions` from
`settings?.questionsCount || 10`), and create a zeroed Score row per member of
the snapshot. -/
def startGameCommit (s : Store) (room : Room) (snapshot : List RoomPlayer)
    (newGameId : String) : Store :=
  let totalQuestions :=
    match room.questionsCount with
    | some n => if n = 0 then 10 else n
    | none => 10
  let game : Game :=
    { id := newGameId, roomId := room.id, status := .STARTING,
      totalQuestions := totalQuestions, currentQuestion := 0 }
  { s with
    rooms := s.rooms.map (fun r =>
      if r.id == room.id then { r with status := .IN_GAME } else r),
    games := s.games ++ [game],
    scores := s.scores ++ snapshot.map (fun p =>
      { gameId := newGameId, playerId := p.id, totalScore := 0, correctAnswers := 0,
        totalAnswers := 0, averageTime := 0 }) }

/-- Handler for `POST /start`: the sequential (uninterleaved) composition of the
two phases. -/
def startGame (s : Store) (roomCode hostSpotifyId newGameId : String) : StartRes × Store :=
  match startGameCheck s roomCode hostSpotifyId with
  | .error e => (.err e, s)
  | .ok (room, snapshot) =>
    let s₁ := startGameCommit s room snapshot newGameId
    let totalQuestions :=
      match room.questionsCount with
      | some n => if n = 0 then 10 else n
      | none => 10
    (.started newGameId totalQuestions, s₁)

/-! ## Answer Aggregator: `POST /api/games/:gameId/answer` (gameController.ts)

The handler reads the game, checks its status, resolves the player, runs a
`findUnique` duplicate check on `(gameId, playerId, questionNumber)`, and only
then `create`s the answer row.  The duplicate check and the insert are separated
by an `await` suspension point; they are modelled as `submitAnswerCheck` and
`submitAnswerResume`.  The store itself enforces the composite unique constraint
(the Prisma composite key `gameId_playerId_questionNumber`), and a constraint
violation on `create` is caught by the handler as a generic 500. -/

/-- Error responses of the answer endpoint. -/
inductive SubmitErr
  | missingFields
  | gameNotFound
  | gameNotInProgress
  | playerNotInGame
  | duplicateAnswer
  | internalError
deriving Repr, DecidableEq

/-- HTTP status code of an answer error (`duplicateAnswer` is the 409
`Answer already submitted for this question`; `internalError` is the catch-all
500 `Failed to submit answer`). -/
def SubmitErr.statusCode : SubmitErr → Nat
  | .missingFields => 400
  | .gameNotFound => 404
  | .gameNotInProgress => 409
  | .playerNotInGame => 404
  | .duplicateAnswer => 409
  | .internalError => 500

/-- Response of the answer endpoint. -/
inductive SubmitRes
  | err (e : SubmitErr)
  | success (answerId : String)
deriving Repr, DecidableEq

/-- Read phase of `POST /:gameId/answer`: game lookup, IN_PROGRESS check, player
resolution, and the application-level duplicate check
(`prisma.gameAnswer.findUnique` on the triple). -/
def submitAnswerCheck (s : Store) (gameId spotifyId : String) (questionNumber : Nat) :
    Except SubmitErr RoomPlayer :=
  match s.findGame gameId with
  | none => .error .gameNotFound
  | some game =>
    if game.status ≠ .IN_PROGRESS then .error .gameNotInProgress
    else
      match (s.roomPlayers game.roomId).find? (fun p => p.spotifyId == spotifyId) with
      | none => .error .playerNotInGame
      | some player =>
        match s.findAnswer gameId player.id questionNumber with
        | some _ => .error .duplicateAnswer
        | none => .ok player

/-- Insertion against the store-level unique constraint on
`(gameId, playerId, questionNumber)`: fails (`none`) when a row with the same
triple already exists. -/
def insertGameAnswer (s : Store) (a : GameAnswer) : Option Store :=
  if (s.findAnswer a.gameId a.playerId a.questionNumber).isSome then none
  else some { s with answers := s.answers ++ [a] }

/-- Write phase of `POST /:gameId/answer`: resumes with the check phase result,
builds the answer row (`isCorrect := false` deferred, `responseTime || 20000`)
and inserts it; a constraint violation surfaces as the generic 500. -/
def submitAnswerResume (s : Store) (checkResult : Except SubmitErr RoomPlayer)
    (gameId : String) (questionNumber : Nat) (selectedAnswer : Int)
    (responseTime : Option Nat) (newAnswerId : String) : SubmitRes × Store :=
  match checkResult with
  | .error e => (.err e, s)
  | .ok player =>
    let rt := match responseTime with | none => 20000 | some 0 => 20000 | some t => t
    let a : GameAnswer :=
      { id := newAnswerId, gameId := gameId, playerId := player.id,
        questionNumber := questionNumber, selectedAnswer := selectedAnswer,
        isCorrect := false, responseTime := rt }
    match insertGameAnswer s a with
    | some s₁ => (.success newAnswerId, s₁)
    | none => (.err .internalError, s)

/-- Handler for `POST /:gameId/answer`: sequential composition of the phases. -/
def submitAnswer (s : Store) (gameId spotifyId : String) (questionNumber : Nat)
    (selectedAnswer : Int) (responseTime : Option Nat) (newAnswerId : String) :
    SubmitRes × Store :=
  submitAnswerResume s (submitAnswerCheck s gameId spotifyId questionNumber) gameId
    questionNumber selectedAnswer responseTime newAnswerId

/-! ## Answer Aggregator: `POST /api/games/:gameId/results` (gameController.ts) -/

/-- Response of the results endpoint.  `internalError` models a transaction
abort (e.g. a score update on a missing `(gameId, playerId)` row throwing). -/
inductive RevealRes
  | gameNotFound
  | notHost
  | internalError
  | success
deriving Repr, DecidableEq

/-- The additive score update applied per answer row when results are revealed:
flat 100 points per correct answer, correct-count incremented exactly when
correct, total-answers-count incremented by one. -/
def bumpScore (correct : Bool) (sc : GameScore) : GameScore :=
  { sc with
    totalScore := sc.totalScore + (if correct then 100 else 0),
    correctAnswers := sc.correctAnswers + (if correct then 1 else 0),
    totalAnswers := sc.totalAnswers + 1 }

/-- One `tx.gameScore.update({ where: { gameId_playerId }, data: increments })`:
`none` (transaction abort) when no such row exists. -/
def updateScore (s : Store) (gameId playerId : String) (correct : Bool) : Option Store :=
  if (s.findScore gameId playerId).isSome then
    some { s with scores := s.scores.map (fun sc =>
      if sc.gameId == gameId && sc.playerId == playerId then bumpScore correct sc else sc) }
  else none

/-- One `tx.gameAnswer.update({ where: { id: answer.id }, data: { isCorrect } })`:
mark the row with the snapshot answer's id correct/incorrect by comparing the
snapshot's selected answer with the supplied key. -/
def markAnswer (correctAnswer : Int) (b : GameAnswer) (s : Store) : Store :=
  { s with answers := s.answers.map (fun a =>
      if a.id == b.id then { a with isCorrect := b.selectedAnswer == correctAnswer }
      else a) }

/-- The `$transaction` of `POST /:gameId/results`, applied to the answer snapshot
fetched with the game: mark each snapshot answer row correct/incorrect by id,
then run the per-answer score increments, then advance `currentQuestion`. -/
def revealCommit (s : Store) (gameId : String) (questionNumber : Nat)
    (correctAnswer : Int) (snapshot : List GameAnswer) : Option Store :=
  let s₁ := snapshot.foldl (fun acc b => markAnswer correctAnswer b acc) s
  (snapshot.foldlM (fun acc a =>
      updateScore acc gameId a.playerId (a.selectedAnswer == correctAnswer)) s₁).map
    (fun s₂ =>
      { s₂ with games := s₂.games.map (fun g =>
          if g.id == gameId then { g with currentQuestion := questionNumber } else g) })

/-- Handler for `POST /:gameId/results`: game lookup (with member list and the
answer rows of the question), host verification, then the transaction. -/
def revealResults (s : Store) (gameId hostSpotifyId : String) (questionNumber : Nat)
    (correctAnswer : Int) : RevealRes × Store :=
  match s.findGame gameId with
  | none => (.gameNotFound, s)
  | some game =>
    let players := s.roomPlayers game.roomId
    let snapshot := s.gameAnswers gameId questionNumber
    if ((players.find? (fun p => p.spotifyId == hostSpotifyId && p.isHost)).isNone) then
      (.notHost, s)
    else
      match revealCommit s gameId questionNumber correctAnswer snapshot with
      | some s₁ => (.success, s₁)
      | none => (.internalError, s)

/-! ## Game Lifecycle Controller: `POST /api/games/:gameId/end` (gameController.ts) -/

/-- Response of the end endpoint. -/
inductive EndRes
  | gameNotFound
  | notHost
  | success
deriving Repr, DecidableEq

/-- Handler for `POST /:gameId/end`: host verification, then mark the game
FINISHED and revert the room status to WAITING (the `isActive` flag is not
touched). -/
def endGame (s : Store) (gameId hostSpotifyId : String) : EndRes × Store :=
  match s.findGame gameId with
  | none => (.gameNotFound, s)
  | some game =>
    if (((s.roomPlayers game.roomId).find?
          (fun p => p.spotifyId == hostSpotifyId && p.isHost)).isNone) then
      (.notHost, s)
    else
      (.success,
        { s with
          games := s.games.map (fun g =>
            if g.id == gameId then { g with status := .FINISHED } else g),
          rooms := s.rooms.map (fun r =>
            if r.id == game.roomId then { r with status := .WAITING } else r) })

/-! ## Connection Session Manager: socket handlers (gameSocket.ts) -/

/-- Target of an emitted socket event: the connection itself (`socket.emit`),
the other connections of a room (`socket.to(code).emit`), or the whole room
(`io.to(code).emit`). -/
inductive EmitTarget
  | toSelf
  | toOthers (roomCode : String)
  | toRoom (roomCode : String)
deriving Repr, DecidableEq

/-- The socket events the claims are about. -/
inductive SocketEvent
  | errorMsg (message : String)
  | playerConnected (playerId displayName : String)
  | roomState (code : String) (status : RoomStatus) (playerIds : List String)
  | playerDisconnected (playerId displayName : String) (isHost : Bool)
deriving Repr, DecidableEq

/-- Whether an event is the `room-state` snapshot. -/
def SocketEvent.isRoomState : SocketEvent → Bool
  | .roomState _ _ _ => true
  | _ => false

/-- Whether an event is the `player-connected` notification. -/
def SocketEvent.isPlayerConnected : SocketEvent → Bool
  | .playerConnected _ _ => true
  | _ => false

/-- Per-connection routing state (`socket.roomCode`, `socket.spotifyId`,
`socket.playerId`), absent until a successful join. -/
structure SocketState where
  roomCode : Option String
  spotifyId : Option String
  playerId : Option String
deriving Repr, DecidableEq

/-- The `join-room` socket handler: validates the fields, looks the room up,
resolves the membership, attaches the connection, and then emits — in this
order — `player-connected` to the other room connections (source line 52) and
`room-state` to the joining connection (source line 58).  The handler performs
no store writes; the returned list is the emission sequence. -/
def handleJoinRoom (s : Store) (sock : SocketState) (roomCode spotifyId : String) :
    SocketState × List (EmitTarget × SocketEvent) :=
  if roomCode = "" ∨ spotifyId = "" then
    (sock, [(.toSelf, .errorMsg "Missing room code or player ID")])
  else
    match s.findRoom (jsToUpper roomCode) with
    | none => (sock, [(.toSelf, .errorMsg "Room not found")])
    | some room =>
      let players := s.roomPlayers room.id
      match players.find? (fun p => p.spotifyId == spotifyId) with
      | none => (sock, [(.toSelf, .errorMsg "Player not in room")])
      | some player =>
        ({ roomCode := some room.code, spotifyId := some spotifyId,
           playerId := some player.id },
         [(.toOthers room.code, .playerConnected player.id player.displayName),
          (.toSelf, .roomState room.code room.status (players.map (fun p => p.id)))])

/-- The `disconnect` socket handler: when the connection carried an attached
membership, look the room and player up and notify the rest of the room
(`player-disconnected`, carrying `isHost`).  The handler contains no store
write; the store is returned untouched on every path. -/
def handleDisconnect (s : Store) (sock : SocketState) :
    Store × List (EmitTarget × SocketEvent) :=
  match sock.roomCode, sock.spotifyId with
  | some roomCode, some spotifyId =>
    (match s.findRoom roomCode with
     | none => (s, [])
     | some room =>
       match (s.roomPlayers room.id).find? (fun p => p.spotifyId == spotifyId) with
       | none => (s, [])
       | some player =>
         (s, [(.toOthers roomCode,
               .playerDisconnected player.id player.displayName player.isHost)]))
  | _, _ => (s, [])

/-! ## Reconnection (socketManager.ts client side; server side modelled from the spec) -/

/-- The record the client stores under `inclew_reconnection`. -/
structure ReconnectionInfo where
  roomCode : String
  spotifyId : String
  reconnectionToken : String
  deviceId : String
  lastActiveAt : Nat
deriving Repr, DecidableEq

/-- The 30-minute freshness window (`maxAge = 30 * 60 * 1000` milliseconds). -/
def reconnectionMaxAge : Nat := 30 * 60 * 1000

/-- What the client-side `attemptReconnection` did. -/
inductive ClientReconnectAction
  | noStored
  | expiredCleared
  | emitted (roomCode spotifyId token deviceId : String)
deriving Repr, DecidableEq

/-- Translation of `SocketManager.attemptReconnection`: with no stored record it
returns `false`; past the 30-minute window it clears the record and returns
`false`; otherwise it emits `reconnect-to-room` with the stored fields and
returns `true`. -/
def attemptReconnection (stored : Option ReconnectionInfo) (now : Nat) :
    Bool × ClientReconnectAction :=
  match stored with
  | none => (false, .noStored)
  | some info =>
    if reconnectionMaxAge < now - info.lastActiveAt then (false, .expiredCleared)
    else (true, .emitted info.roomCode info.spotifyId info.reconnectionToken info.deviceId)

/-- Result of the server-side reconnection handler. -/
inductive ReconnectRes
  | accepted (playerId : String)
  | invalidCredentials
  | reconnectionExpired
  | roomNotFound
deriving Repr, DecidableEq

/-- Modelled from the spec: the server-side `reconnect-to-room` handler
(`handleReconnect`, consumed by the client emitter in socketManager.ts) is not
under src/.  Per spec §4.2 it requires an exact match of identity, reconnection
token and device fingerprint against the stored membership and that the
membership's last-active timestamp is within the 30-minute freshness window,
failing with `InvalidCredentials` on any field mismatch and
`ReconnectionExpired` past the window; on success it refreshes last-active and
re-attaches the connection. -/
def handleReconnect (s : Store) (roomCode spotifyId token deviceId : String) (now : Nat) :
    ReconnectRes × Store :=
  match s.findRoom (jsToUpper roomCode) with
  | none => (.roomNotFound, s)
  | some room =>
    match (s.roomPlayers room.id).find? (fun p => p.spotifyId == spotifyId) with
    | none => (.invalidCredentials, s)
    | some m =>
      if m.reconnectionToken ≠ some token ∨ m.deviceId ≠ some deviceId then
        (.invalidCredentials, s)
      else if reconnectionMaxAge < now - m.lastActiveAt then (.reconnectionExpired, s)
      else
        (.accepted m.id,
          { s with players := s.players.map (fun p =>
              if p.id == m.id then { p with lastActiveAt := now } else p) })

/-! ## Auxiliary predicates and concrete stores used by the theorems -/

/-- The store-level uniqueness invariant of the Answer table: at most one answer
row exists per `(gameId, playerId, questionNumber)` triple. -/
def AnswersUnique (s : Store) : Prop :=
  ∀ gid pid q,
    (s.answers.filter (fun a =>
      a.gameId == gid && a.playerId == pid && a.questionNumber == q)).length ≤ 1

/-- Whether the read phase of `POST /start` passed all checks. -/
def startCheckPassed : Except StartErr (Room × List RoomPlayer) → Bool
  | .ok _ => true
  | .error _ => false

/-- Whether the read phase of `POST /:gameId/answer` passed all checks
(including the application-level duplicate check). -/
def submitCheckPassed : Except SubmitErr RoomPlayer → Bool
  | .ok _ => true
  | .error _ => false

/-- A one-room, one-membership store parametrised by the membership's stored
credentials, used to state the reconnection acceptance condition. -/
def reconnectProbeStore (msp tok dev : String) (t : Nat) : Store :=
  { rooms := [{ id := "r1", code := "ROOM", hostId := msp, status := .WAITING,
                isActive := true, maxPlayers := 8, questionsCount := none }],
    players := [{ id := "m1", roomId := "r1", spotifyId := msp, displayName := "M",
                  imageUrl := none, isHost := true, isReady := true, musicData := none,
                  reconnectionToken := some tok, deviceId := some dev,
                  lastActiveAt := t }],
    games := [], scores := [], answers := [] }

/-- A sample room used by witnesses. -/
def sampleRoom : Room :=
  { id := "r1", code := "ABCD", hostId := "H", status := .WAITING, isActive := true,
    maxPlayers := 8, questionsCount := none }

/-- The sample room's host membership. -/
def sampleHost : RoomPlayer :=
  { id := "pH", roomId := "r1", spotifyId := "H", displayName := "Host",
    imageUrl := none, isHost := true, isReady := true, musicData := some "mh",
    reconnectionToken := none, deviceId := none, lastActiveAt := 0 }

/-- The sample room's non-host membership. -/
def sampleGuest : RoomPlayer :=
  { id := "pP", roomId := "r1", spotifyId := "P", displayName := "Pat",
    imageUrl := none, isHost := false, isReady := true, musicData := some "mp",
    reconnectionToken := none, deviceId := none, lastActiveAt := 0 }

/-- A sample in-progress game in the sample room. -/
def sampleGame : Game :=
  { id := "g1", roomId := "r1", status := .IN_PROGRESS, totalQuestions := 10,
    currentQuestion := 0 }

/-- A sample store: one room, host and guest, a game in progress with zeroed
scores and no answers yet. -/
def sampleStore : Store :=
  { rooms := [sampleRoom], players := [sampleHost, sampleGuest], games := [sampleGame],
    scores := [{ gameId := "g1", playerId := "pH", totalScore := 0, correctAnswers := 0,
                 totalAnswers := 0, averageTime := 0 },
               { gameId := "g1", playerId := "pP", totalScore := 0, correctAnswers := 0,
                 totalAnswers := 0, averageTime := 0 }],
    answers := [] }

/-- A sample store with an answer row already present for the guest on
question 1 (used for the duplicate-submission claim). -/
def sampleStoreAnswered : Store :=
  { sampleStore with answers :=
      [{ id := "a0", gameId := "g1", playerId := "pP", questionNumber := 1,
         selectedAnswer := 2, isCorrect := false, responseTime := 5 }] }

/-- A degenerate random stream: every draw is letter 0 (so every generated code
is `AAAA`). -/
def rand0 : Nat → Fin 26 := fun _ => 0

/-- An end-to-end trace through the controller API (every state is produced by a
handler, so each is reachable): host H creates a room (code `AAAA`)... -/
def traceS1 : Store :=
  (createRoom { rooms := [], players := [], games := [], scores := [], answers := [] }
    "H" "Host" none rand0 "r1" "pH").2

/-- ... player P joins ... -/
def traceS2 : Store := (joinRoom traceS1 "AAAA" "P" "Pat" none "pP").2

/-- ... H shares music data ... -/
def traceS3 : Store := (shareMusicData traceS2 "AAAA" "H" "mh").2

/-- ... P shares music data (both members now ready with payloads) ... -/
def traceS4 : Store := (shareMusicData traceS3 "AAAA" "P" "mp").2

/-- ... H starts the game (room IN_GAME, game `g1` STARTING) ... -/
def traceS5 : Store := (startGame traceS4 "AAAA" "H" "g1").2

/-- ... H leaves: the room is soft-deleted (`isActive := false`, FINISHED) ... -/
def traceS6 : Store := (leaveRoom traceS5 "AAAA" "H").2

/-- ... H ends the game: the room status reverts to WAITING while `isActive`
stays `false` — a reachable inactive WAITING room with P still a member. -/
def traceS7 : Store := (endGame traceS6 "g1" "H").2

/-- First interleaved start call: request 1 runs its read phase on `traceS4` and
commits. -/
def startRaceS1 : Store :=
  match startGameCheck traceS4 "AAAA" "H" with
  | .ok (room, snap) => startGameCommit traceS4 room snap "g1"
  | .error _ => traceS4

/-- Second interleaved start call: request 2 also ran its read phase on
`traceS4` (before request 1's transaction committed — the read and the
transaction are separated by `await` suspension points) and then commits on the
store request 1 produced. -/
def startRaceS2 : Store :=
  match startGameCheck traceS4 "AAAA" "H" with
  | .ok (room, snap) => startGameCommit startRaceS1 room snap "g2"
  | .error _ => startRaceS1

/-- Store after the first of two interleaved duplicate answer submissions: both
requests pass `submitAnswerCheck` on `sampleStore` (no answer row yet); request
1 then inserts. -/
def answerRaceS1 : Store :=
  (submitAnswerResume sampleStore (submitAnswerCheck sampleStore "g1" "P" 1)
    "g1" 1 2 (some 5) "a1").2

/-- The response and store of the second interleaved submission, resumed with
its stale check result (computed on `sampleStore`) against `answerRaceS1`. -/
def answerRaceStep2 : SubmitRes × Store :=
  submitAnswerResume answerRaceS1 (submitAnswerCheck sampleStore "g1" "P" 1)
    "g1" 1 2 (some 6) "a2"

/-! ## Helper lemmas -/

/-- `find?` commutes with mapping a function that does not change the predicate. -/
theorem find?_map_pres {α : Type} (l : List α) (f : α → α) (p : α → Bool)
    (hf : ∀ a, p (f a) = p a) :
    (l.map f).find? p = (l.find? p).map f := by
  induction l with
  | nil => rfl
  | cons a t ih =>
    by_cases h : p a = true
    · rw [List.map_cons, List.find?_cons_of_pos _ (by rw [hf]; exact h),
        List.find?_cons_of_pos _ h, Option.map_some']
    · rw [List.map_cons, List.find?_cons_of_neg _ (by rw [hf]; exact h),
        List.find?_cons_of_neg _ h, ih]

/-! ## C8: leaveRoom — host soft-delete, non-host single-row delete -/

/-- C8: for every leaveRoom call, if the leaving member holds the host flag the
room is soft-deleted (`isActive := false`, status FINISHED) and no membership
row (nor any game/score/answer row) is deleted; if the leaving member is not
the host, exactly that member's membership row is deleted while the room rows,
the host and all other memberships are unchanged — in particular the host is
never removed by a non-host leave. -/
theorem leaveRoom_host_soft_delete_nonhost_delete
    (s : Store) (code spotifyId : String) (room : Room) (player : RoomPlayer)
    (hsp : spotifyId ≠ "")
    (hroom : s.findRoom (jsToUpper code) = some room)
    (hplayer : (s.roomPlayers room.id).find? (fun p => p.spotifyId == spotifyId) =
      some player)
    (hids : (s.players.map (fun p => p.id)).Nodup) :
    (player.isHost = true →
      (leaveRoom s code spotifyId).1 = .success ∧
      (leaveRoom s code spotifyId).2.players = s.players ∧
      (leaveRoom s code spotifyId).2.games = s.games ∧
      (leaveRoom s code spotifyId).2.scores = s.scores ∧
      (leaveRoom s code spotifyId).2.answers = s.answers ∧
      (leaveRoom s code spotifyId).2.findRoom (jsToUpper code) =
        some { room with isActive := false, status := RoomStatus.FINISHED }) ∧
    (player.isHost = false →
      (leaveRoom s code spotifyId).1 = .success ∧
      (leaveRoom s code spotifyId).2.rooms = s.rooms ∧
      (leaveRoom s code spotifyId).2.games = s.games ∧
      (leaveRoom s code spotifyId).2.scores = s.scores ∧
      (leaveRoom s code spotifyId).2.answers = s.answers ∧
      (leaveRoom s code spotifyId).2.players =
        s.players.filter (fun p => !(p.id == player.id)) ∧
      player ∉ (leaveRoom s code spotifyId).2.players ∧
      (∀ q ∈ s.players, q.id ≠ player.id → q ∈ (leaveRoom s code spotifyId).2.players) ∧
      (∀ q ∈ s.players, q.isHost = true → q ∈ (leaveRoom s code spotifyId).2.players)) := by
  have hpmem : player ∈ s.players := by
    have h₁ := List.mem_of_find?_eq_some hplayer
    exact (List.mem_filter.mp h₁).1
  constructor
  · intro hhost
    have hred : leaveRoom s code spotifyId =
        (.success, { s with rooms := s.rooms.map (fun r =>
          if r.id == room.id then { r with isActive := false, status := .FINISHED }
          else r) }) := by
      simp [leaveRoom, hsp, hroom, hplayer, hhost]
    rw [hred]
    refine ⟨rfl, rfl, rfl, rfl, rfl, ?_⟩
    show (List.map _ s.rooms).find? _ = _
    rw [find?_map_pres _ _ _ (fun r => by
      by_cases h : (r.id == room.id) = true <;> simp [h])]
    unfold Store.findRoom at hroom
    rw [hroom, Option.map_some']
    simp
  · intro hhost
    have hred : leaveRoom s code spotifyId =
        (.success, { s with players := s.players.filter (fun p => !(p.id == player.id)) }) := by
      simp [leaveRoom, hsp, hroom, hplayer, hhost]
    rw [hred]
    refine ⟨rfl, rfl, rfl, rfl, rfl, rfl, ?_, ?_, ?_⟩
    · intro hmem
      have := (List.mem_filter.mp hmem).2
      simp at this
    · intro q hq hne
      exact List.mem_filter.mpr ⟨hq, by simp [hne]⟩
    · intro q hq hqhost
      refine List.mem_filter.mpr ⟨hq, ?_⟩
      have hne : q.id ≠ player.id := by
        intro heq
        have : q = player := List.inj_on_of_nodup_map hids hq hpmem heq
        rw [this] at hqhost
        rw [hqhost] at hhost
        exact Bool.true_eq_false.mp hhost
      simp [hne]

/-- C8 witness: the leave theorem applied to the sample store for the non-host
guest — the call succeeds, the room rows are untouched and exactly the guest's
membership row is removed. -/
theorem leaveRoom_host_soft_delete_nonhost_delete_witness :
    ("P" : String) ≠ "" ∧
    sampleStore.findRoom (jsToUpper "ABCD") = some sampleRoom ∧
    (sampleStore.roomPlayers sampleRoom.id).find? (fun p => p.spotifyId == "P") =
      some sampleGuest ∧
    (sampleStore.players.map (fun p => p.id)).Nodup ∧
    (leaveRoom sampleStore "ABCD" "P").1 = .success ∧
    (leaveRoom sampleStore "ABCD" "P").2.rooms = sampleStore.rooms ∧
    (leaveRoom sampleStore "ABCD" "P").2.players =
      sampleStore.players.filter (fun p => !(p.id == sampleGuest.id)) :=
  ⟨by decide, by decide, by decide, by decide,
    ((leaveRoom_host_soft_delete_nonhost_delete sampleStore "ABCD" "P" sampleRoom
      sampleGuest (by decide) (by decide) (by decide) (by decide)).2 (by decide)).1,
    ((leaveRoom_host_soft_delete_nonhost_delete sampleStore "ABCD" "P" sampleRoom
      sampleGuest (by decide) (by decide) (by decide) (by decide)).2 (by decide)).2.1,
    ((leaveRoom_host_soft_delete_nonhost_delete sampleStore "ABCD" "P" sampleRoom
      sampleGuest (by decide) (by decide) (by decide)
      (by decide)).2 (by decide)).2.2.2.2.2.1⟩

/-! ## C9: disconnect handler — notification without state change -/

/-- C9: for every disconnect of a connection with an attached membership (room
and player resolvable), the handler notifies the rest of the room with a
`player-disconnected` event carrying the host flag; and on every path — for any
connection state whatsoever — the store is returned unchanged: no membership,
room, game, score or answer row is deleted or modified. -/
theorem handleDisconnect_notifies_and_preserves_store
    (s : Store) (sock : SocketState) (rc sp : String) (room : Room) (player : RoomPlayer)
    (hrc : sock.roomCode = some rc) (hsp : sock.spotifyId = some sp)
    (hroom : s.findRoom rc = some room)
    (hplayer : (s.roomPlayers room.id).find? (fun p => p.spotifyId == sp) = some player) :
    handleDisconnect s sock =
      (s, [(.toOthers rc,
            .playerDisconnected player.id player.displayName player.isHost)]) ∧
    ∀ sock₂ : SocketState, (handleDisconnect s sock₂).1 = s := by
  constructor
  · simp [handleDisconnect, hrc, hsp, hroom, hplayer]
  · intro sock₂
    rcases sock₂ with ⟨orc, osp, opid⟩
    cases orc with
    | none => rfl
    | some rc₂ =>
      cases osp with
      | none => rfl
      | some sp₂ =>
        unfold handleDisconnect
        cases hfr : s.findRoom rc₂ with
        | none => simp [hfr]
        | some room₂ =>
          simp only [hfr]
          cases hfp : (s.roomPlayers room₂.id).find? (fun p => p.spotifyId == sp₂) with
          | none => simp [hfp]
          | some player₂ => simp [hfp]

/-- C9 witness: the disconnect theorem applied to the sample store with the
guest's connection state — the room is notified with the host flag and the
store is returned unchanged. -/
theorem handleDisconnect_notifies_witness :
    (SocketState.mk (some "ABCD") (some "P") (some "pP")).roomCode = some "ABCD" ∧
    (SocketState.mk (some "ABCD") (some "P") (some "pP")).spotifyId = some "P" ∧
    sampleStore.findRoom "ABCD" = some sampleRoom ∧
    (sampleStore.roomPlayers sampleRoom.id).find? (fun p => p.spotifyId == "P") =
      some sampleGuest ∧
    handleDisconnect sampleStore (SocketState.mk (some "ABCD") (some "P") (some "pP")) =
      (sampleStore,
        [(.toOthers "ABCD",
          .playerDisconnected sampleGuest.id sampleGuest.displayName
            sampleGuest.isHost)]) :=
  ⟨rfl, rfl, by decide, by decide,
    (handleDisconnect_notifies_and_preserves_store sampleStore
      (SocketState.mk (some "ABCD") (some "P") (some "pP")) "ABCD" "P" sampleRoom
      sampleGuest rfl rfl (by decide) (by decide)).1⟩

/-! ## C5: join-room emission order -/

/-- C5 counterexample: on a concrete successful join, the handler's emission
sequence places `player-connected` (to the other connections) strictly before
`room-state` (to the joining connection) — the first emission is not
`room-state`.  Since broadcast events within a room are delivered to each
connection in emission order, the claimed ordering (room-state first) is false
for this input. -/
theorem handleJoinRoom_playerConnected_emitted_first :
    List.findIdx (fun e => e.2.isPlayerConnected)
        (handleJoinRoom sampleStore
          { roomCode := none, spotifyId := none, playerId := none } "ABCD" "P").2 <
      List.findIdx (fun e => e.2.isRoomState)
        (handleJoinRoom sampleStore
          { roomCode := none, spotifyId := none, playerId := none } "ABCD" "P").2 ∧
    ((handleJoinRoom sampleStore
        { roomCode := none, spotifyId := none, playerId := none } "ABCD" "P").2.head?.map
      (fun e => e.2.isRoomState)) = some false := by decide

/-- C5 (amended): for every successful join over the live connection, the
handler emits exactly two events in this order: first `player-connected` to the
other connections of the room, then `room-state` to the joining connection
(the joining connection is excluded from the `player-connected` broadcast). -/
theorem handleJoinRoom_emission_order
    (s : Store) (sock : SocketState) (roomCode spotifyId : String)
    (room : Room) (player : RoomPlayer)
    (h1 : roomCode ≠ "") (h2 : spotifyId ≠ "")
    (hroom : s.findRoom (jsToUpper roomCode) = some room)
    (hplayer : (s.roomPlayers room.id).find? (fun p => p.spotifyId == spotifyId) =
      some player) :
    (handleJoinRoom s sock roomCode spotifyId).2 =
      [(.toOthers room.code, .playerConnected player.id player.displayName),
       (.toSelf, .roomState room.code room.status
         ((s.roomPlayers room.id).map (fun p => p.id)))] := by
  simp [handleJoinRoom, h1, h2, hroom, hplayer]

/-- C5 witness: the amended emission-order theorem applied to the sample store. -/
theorem handleJoinRoom_emission_order_witness :
    ("ABCD" : String) ≠ "" ∧ ("P" : String) ≠ "" ∧
    sampleStore.findRoom (jsToUpper "ABCD") = some sampleRoom ∧
    (sampleStore.roomPlayers sampleRoom.id).find? (fun p => p.spotifyId == "P") =
      some sampleGuest ∧
    (handleJoinRoom sampleStore
        { roomCode := none, spotifyId := none, playerId := none } "ABCD" "P").2 =
      [(.toOthers sampleRoom.code,
        .playerConnected sampleGuest.id sampleGuest.displayName),
       (.toSelf, .roomState sampleRoom.code sampleRoom.status
         ((sampleStore.roomPlayers sampleRoom.id).map (fun p => p.id)))] :=
  ⟨by decide, by decide, by decide, by decide,
    handleJoinRoom_emission_order sampleStore
      { roomCode := none, spotifyId := none, playerId := none } "ABCD" "P"
      sampleRoom sampleGuest (by decide) (by decide) (by decide) (by decide)⟩

/-! ## C3: rejoin idempotence -/

/-- C3 counterexample: the trace `traceS1 … traceS7` (create, join, two
share-data calls, start, host leave, end-game) produces — through the public
API alone — a room whose status is WAITING but whose `isActive` flag is
`false`, with P still holding a membership row; P's next join is rejected with
the 410 room-inactive error instead of succeeding, so the claim as stated
(every second join on a WAITING room with an existing membership succeeds)
fails at this input. -/
theorem joinRoom_rejoin_rejected_inactive_waiting :
    ((traceS7.findRoom "AAAA").map (fun r => (r.status, r.isActive))) =
      some (RoomStatus.WAITING, false) ∧
    traceS7.players.any (fun p => p.spotifyId == "P") = true ∧
    joinRoom traceS7 "AAAA" "P" "Pat" none "pP2" = (.roomInactive, traceS7) ∧
    JoinRes.statusCode .roomInactive = 410 := by decide

/-- C3 (amended): rejoin is idempotent on every ACTIVE room, whatever its
status: if the identity already has a membership row, a join call succeeds
(HTTP 200), returns that row's membership identifier, leaves the store
untouched (no second membership row) and is not the game-in-progress
rejection; moreover a join that created a membership, immediately followed by a
second join with the same identity, returns the same membership identifier and
changes nothing.  (The claim as frozen omits the activity condition: a soft
deleted room rejects the rejoin with 410, see the counterexample.) -/
theorem joinRoom_rejoin_idempotent
    (s : Store) (code spotifyId displayName : String) (imageUrl : Option String)
    (newPlayerId : String) (room : Room) (existing : RoomPlayer)
    (h1 : spotifyId ≠ "") (h2 : displayName ≠ "")
    (hroom : s.findRoom (jsToUpper code) = some room) (hact : room.isActive = true)
    (hexist : (s.roomPlayers room.id).find? (fun p => p.spotifyId == spotifyId) =
      some existing) :
    joinRoom s code spotifyId displayName imageUrl newPlayerId =
      (.rejoined existing.id (room.status == .IN_GAME), s) ∧
    JoinRes.statusCode (.rejoined existing.id (room.status == .IN_GAME)) = 200 ∧
    (∀ (s₀ : Store) (c sp dn : String) (img : Option String) (pid : String)
        (s₁ : Store) (dn₂ : String) (img₂ : Option String) (pid₂ : String),
      joinRoom s₀ c sp dn img pid = (.joined pid, s₁) → dn₂ ≠ "" →
      joinRoom s₁ c sp dn₂ img₂ pid₂ = (.rejoined pid false, s₁)) := by
  refine ⟨by simp [joinRoom, h1, h2, hroom, hact, hexist], rfl, ?_⟩
  intro s₀ c sp dn img pid s₁ dn₂ img₂ pid₂ hj hdn₂
  unfold joinRoom at hj
  by_cases h0 : sp = "" ∨ dn = ""
  · rw [if_pos h0] at hj
    simp at hj
  · rw [if_neg h0] at hj
    have hsp : sp ≠ "" := fun h => h0 (Or.inl h)
    cases hfr : s₀.findRoom (jsToUpper c) with
    | none => rw [hfr] at hj; simp at hj
    | some room₀ =>
      rw [hfr] at hj
      simp only [] at hj
      by_cases hact₀ : room₀.isActive = true
      · rw [if_neg (by simp [hact₀])] at hj
        cases hex : (s₀.roomPlayers room₀.id).find? (fun p => p.spotifyId == sp) with
        | some q => rw [hex] at hj; simp at hj
        | none =>
          rw [hex] at hj
          simp only [] at hj
          by_cases hst : room₀.status = RoomStatus.IN_GAME ∨
              room₀.status = RoomStatus.STARTING
          · rw [if_pos hst] at hj; simp at hj
          · rw [if_neg hst] at hj
            by_cases hfull : room₀.maxPlayers ≤ (s₀.roomPlayers room₀.id).length
            · rw [if_pos hfull] at hj; simp at hj
            · rw [if_neg hfull] at hj
              have hs₁ : s₁ = { s₀ with players := s₀.players ++
                  [{ id := pid, roomId := room₀.id, spotifyId := sp,
                     displayName := dn, imageUrl := img, isHost := false,
                     isReady := false, musicData := none, reconnectionToken := none,
                     deviceId := none, lastActiveAt := 0 }] } :=
                (congrArg Prod.snd hj).symm
              have hnotin : room₀.status ≠ RoomStatus.IN_GAME :=
                fun h => hst (Or.inl h)
              subst hs₁
              have hfr₁ : Store.findRoom { s₀ with players := s₀.players ++
                  [{ id := pid, roomId := room₀.id, spotifyId := sp,
                     displayName := dn, imageUrl := img, isHost := false,
                     isReady := false, musicData := none, reconnectionToken := none,
                     deviceId := none, lastActiveAt := 0 }] }
                  (jsToUpper c) = some room₀ := hfr
              unfold joinRoom
              rw [if_neg (by push_neg; exact ⟨hsp, hdn₂⟩), hfr₁]
              simp only []
              rw [if_neg (by simp [hact₀])]
              have hplayers : Store.roomPlayers
                  { s₀ with players := s₀.players ++
                    [{ id := pid, roomId := room₀.id, spotifyId := sp,
                       displayName := dn, imageUrl := img, isHost := false,
                       isReady := false, musicData := none, reconnectionToken := none,
                       deviceId := none, lastActiveAt := 0 }] } room₀.id =
                  s₀.roomPlayers room₀.id ++
                    [{ id := pid, roomId := room₀.id, spotifyId := sp,
                       displayName := dn, imageUrl := img, isHost := false,
                       isReady := false, musicData := none, reconnectionToken := none,
                       deviceId := none, lastActiveAt := 0 }] := by
                unfold Store.roomPlayers
                rw [List.filter_append]
                simp
              rw [hplayers, List.find?_append, hex]
              simp [hnotin]
      · rw [if_pos (by simp [hact₀])] at hj
        simp at hj

/-- C3 witness: the amended rejoin theorem applied to the sample store. -/
theorem joinRoom_rejoin_idempotent_witness :
    ("P" : String) ≠ "" ∧ ("Pat" : String) ≠ "" ∧
    sampleStore.findRoom (jsToUpper "ABCD") = some sampleRoom ∧
    sampleRoom.isActive = true ∧
    (sampleStore.roomPlayers sampleRoom.id).find? (fun p => p.spotifyId == "P") =
      some sampleGuest ∧
    joinRoom sampleStore "ABCD" "P" "Pat" none "pX" =
      (.rejoined sampleGuest.id (sampleRoom.status == RoomStatus.IN_GAME),
        sampleStore) :=
  ⟨by decide, by decide, by decide, by decide, by decide,
    (joinRoom_rejoin_idempotent sampleStore "ABCD" "P" "Pat" none "pX" sampleRoom
      sampleGuest (by decide) (by decide) (by decide) (by decide) (by decide)).1⟩

/-! ## startGame helper lemmas -/

/-- When the read phase fails, the start handler responds with its error and
the store is untouched. -/
theorem startGame_of_check_error (s : Store) (roomCode hostSpotifyId newGameId : String)
    (e : StartErr) (h : startGameCheck s roomCode hostSpotifyId = .error e) :
    startGame s roomCode hostSpotifyId newGameId = (.err e, s) := by
  unfold startGame
  rw [h]

/-- When the read phase passes, the resulting store is the committed one. -/
theorem startGame_of_check_ok (s : Store) (roomCode hostSpotifyId newGameId : String)
    (room : Room) (snap : List RoomPlayer)
    (h : startGameCheck s roomCode hostSpotifyId = .ok (room, snap)) :
    (startGame s roomCode hostSpotifyId newGameId).2 =
      startGameCommit s room snap newGameId := by
  unfold startGame
  rw [h]

/-- Inversion of a passing read phase: the room was found, the snapshot is its
member list, and no active game existed at check time. -/
theorem startGameCheck_ok_inv (s : Store) (roomCode hostSpotifyId : String)
    (room : Room) (snap : List RoomPlayer)
    (h : startGameCheck s roomCode hostSpotifyId = .ok (room, snap)) :
    s.findRoom (jsToUpper roomCode) = some room ∧
    snap = s.roomPlayers room.id ∧
    (s.activeGames room.id).length = 0 := by
  unfold startGameCheck at h
  by_cases h0 : roomCode = "" ∨ hostSpotifyId = ""
  · rw [if_pos h0] at h; simp at h
  · rw [if_neg h0] at h
    cases hfr : s.findRoom (jsToUpper roomCode) with
    | none => rw [hfr] at h; simp at h
    | some room₁ =>
      rw [hfr] at h
      simp only [] at h
      by_cases hh : (((s.roomPlayers room₁.id).find?
          (fun p => p.spotifyId == hostSpotifyId && p.isHost)).isNone) = true
      · rw [if_pos hh] at h; simp at h
      · rw [if_neg hh] at h
        by_cases hact : 0 < (s.activeGames room₁.id).length
        · rw [if_pos hact] at h; simp at h
        · rw [if_neg hact] at h
          by_cases hun : 0 < ((s.roomPlayers room₁.id).filter
              (fun p => !p.isReady || p.musicData.isNone)).length
          · rw [if_pos hun] at h; simp at h
          · rw [if_neg hun] at h
            by_cases hlen : (s.roomPlayers room₁.id).length < 2
            · rw [if_pos hlen] at h; simp at h
            · rw [if_neg hlen] at h
              simp only [Except.ok.injEq, Prod.mk.injEq] at h
              obtain ⟨hr, hs⟩ := h
              subst hr
              exact ⟨rfl, hs.symm, Nat.eq_zero_of_not_pos hact⟩

/-- The commit adds exactly one STARTING game for the checked room and leaves
the active-game lists of every other room untouched. -/
theorem startGameCommit_activeGames (s : Store) (room : Room) (snap : List RoomPlayer)
    (gid rid : String) :
    ((startGameCommit s room snap gid).activeGames rid).length ≤
      (s.activeGames rid).length + 1 ∧
    (rid ≠ room.id →
      (startGameCommit s room snap gid).activeGames rid = s.activeGames rid) := by
  constructor
  · show (List.filter _ (s.games ++ _)).length ≤ _
    rw [List.filter_append, List.length_append]
    have h₁ := List.length_filter_le
      (fun g : Game => g.roomId == rid && activeGameStatuses.contains g.status)
      [{ id := gid, roomId := room.id, status := .STARTING,
         totalQuestions := match room.questionsCount with
           | some n => if n = 0 then 10 else n
           | none => 10,
         currentQuestion := 0 }]
    simp only [List.length_cons, List.length_nil] at h₁
    have h₂ : List.filter
        (fun g : Game => g.roomId == rid && activeGameStatuses.contains g.status)
        s.games = s.activeGames rid := rfl
    rw [h₂]
    omega
  · intro hne
    show List.filter _ (s.games ++ _) = _
    rw [List.filter_append]
    have hnil : List.filter
        (fun g : Game => g.roomId == rid && activeGameStatuses.contains g.status)
        [{ id := gid, roomId := room.id, status := .STARTING,
           totalQuestions := match room.questionsCount with
             | some n => if n = 0 then 10 else n
             | none => 10,
           currentQuestion := 0 }] = [] := by
      simp [Ne.symm hne]
    rw [hnil, List.append_nil]
    rfl

/-! ## C10: readiness / minimum-player preconditions of startGame -/

/-- C10: beyond the host check, a start request from the legitimate host fails
with a 409 state-conflict error — and creates no Game or Score row — whenever
some member is not ready or has a NULL music payload, or the room has fewer
than two members; consequently a room with exactly one member can never start a
game: every start request on it leaves the store unchanged and is not the
success response. -/
theorem startGame_readiness_and_minimum_preconditions
    (s : Store) (roomCode hostSpotifyId newGameId : String) (room : Room)
    (hroom : s.findRoom (jsToUpper roomCode) = some room) :
    (∀ hostP : RoomPlayer, roomCode ≠ "" → hostSpotifyId ≠ "" →
      ((s.roomPlayers room.id).find?
        (fun p => p.spotifyId == hostSpotifyId && p.isHost)) = some hostP →
      ((∃ p ∈ s.roomPlayers room.id, p.isReady = false ∨ p.musicData = none) ∨
        (s.roomPlayers room.id).length < 2) →
      ∃ e : StartErr, startGame s roomCode hostSpotifyId newGameId = (.err e, s) ∧
        e.statusCode = 409) ∧
    ((s.roomPlayers room.id).length = 1 →
      (startGame s roomCode hostSpotifyId newGameId).1.isStarted = false ∧
      (startGame s roomCode hostSpotifyId newGameId).2 = s) := by
  have herr : ∀ e : StartErr, startGameCheck s roomCode hostSpotifyId = .error e →
      (startGame s roomCode hostSpotifyId newGameId).1.isStarted = false ∧
      (startGame s roomCode hostSpotifyId newGameId).2 = s := by
    intro e he
    rw [startGame_of_check_error _ _ _ _ _ he]
    exact ⟨rfl, rfl⟩
  constructor
  · intro hostP hrc hhsp hhost hcond
    by_cases hact : 0 < (s.activeGames room.id).length
    · refine ⟨.gameAlreadyActive, startGame_of_check_error _ _ _ _ _ ?_, rfl⟩
      unfold startGameCheck
      rw [if_neg (by push_neg; exact ⟨hrc, hhsp⟩), hroom]
      simp only []
      rw [hhost]
      rw [if_neg (by simp), if_pos hact]
    · by_cases hun : 0 < ((s.roomPlayers room.id).filter
          (fun p => !p.isReady || p.musicData.isNone)).length
      · refine ⟨.playersNotReady, startGame_of_check_error _ _ _ _ _ ?_, rfl⟩
        unfold startGameCheck
        rw [if_neg (by push_neg; exact ⟨hrc, hhsp⟩), hroom]
        simp only []
        rw [hhost]
        rw [if_neg (by simp), if_neg hact, if_pos hun]
      · have hlt : (s.roomPlayers room.id).length < 2 := by
          rcases hcond with ⟨p, hp, hc⟩ | h2
          · exfalso
            apply hun
            have hmem : p ∈ (s.roomPlayers room.id).filter
                (fun p => !p.isReady || p.musicData.isNone) := by
              refine List.mem_filter.mpr ⟨hp, ?_⟩
              rcases hc with h | h <;> simp [h]
            exact List.length_pos_of_mem hmem
          · exact h2
        refine ⟨.insufficientPlayers, startGame_of_check_error _ _ _ _ _ ?_, rfl⟩
        unfold startGameCheck
        rw [if_neg (by push_neg; exact ⟨hrc, hhsp⟩), hroom]
        simp only []
        rw [hhost]
        rw [if_neg (by simp), if_neg hact, if_neg hun, if_pos hlt]
  · intro hone
    by_cases h0 : roomCode = "" ∨ hostSpotifyId = ""
    · refine herr .missingFields ?_
      unfold startGameCheck
      rw [if_pos h0]
    · cases hfh : (s.roomPlayers room.id).find?
          (fun p => p.spotifyId == hostSpotifyId && p.isHost) with
      | none =>
        refine herr .notHost ?_
        unfold startGameCheck
        rw [if_neg h0, hroom]
        simp only []
        rw [hfh]
        rw [if_pos (by simp)]
      | some hostP =>
        by_cases hact : 0 < (s.activeGames room.id).length
        · refine herr .gameAlreadyActive ?_
          unfold startGameCheck
          rw [if_neg h0, hroom]
          simp only []
          rw [hfh]
          rw [if_neg (by simp), if_pos hact]
        · by_cases hun : 0 < ((s.roomPlayers room.id).filter
              (fun p => !p.isReady || p.musicData.isNone)).length
          · refine herr .playersNotReady ?_
            unfold startGameCheck
            rw [if_neg h0, hroom]
            simp only []
            rw [hfh]
            rw [if_neg (by simp), if_neg hact, if_pos hun]
          · refine herr .insufficientPlayers ?_
            unfold startGameCheck
            rw [if_neg h0, hroom]
            simp only []
            rw [hfh]
            rw [if_neg (by simp), if_neg hact, if_neg hun, if_pos (by omega)]

/-- C10 witness: a solo room (only the host is a member) — no start request
can succeed: the result is not the success response and the store is
unchanged. -/
theorem startGame_readiness_witness :
    traceS1.findRoom (jsToUpper "AAAA") = some
      { id := "r1", code := "AAAA", hostId := "H", status := .WAITING,
        isActive := true, maxPlayers := 8, questionsCount := none } ∧
    (traceS1.roomPlayers "r1").length = 1 ∧
    (startGame traceS1 "AAAA" "H" "g9").1.isStarted = false ∧
    (startGame traceS1 "AAAA" "H" "g9").2 = traceS1 := by
  refine ⟨by decide, by decide, ?_, ?_⟩
  · exact ((startGame_readiness_and_minimum_preconditions traceS1 "AAAA" "H" "g9"
      { id := "r1", code := "AAAA", hostId := "H", status := .WAITING,
        isActive := true, maxPlayers := 8, questionsCount := none }
      (by decide)).2 (by decide)).1
  · exact ((startGame_readiness_and_minimum_preconditions traceS1 "AAAA" "H" "g9"
      { id := "r1", code := "AAAA", hostId := "H", status := .WAITING,
        isActive := true, maxPlayers := 8, questionsCount := none }
      (by decide)).2 (by decide)).2

/-! ## C4: host gate, already-active gate, at-most-one-active-game invariant -/

/-- C4 counterexample: two start calls interleave — both run their read phase
(room lookup, host check, active-game query) on `traceS4`, where no game
exists, before either transaction commits; the active-game query is outside
the creating transaction, so both pass and both commit, leaving TWO
non-FINISHED games for room r1.  This falsifies, for this input, both "only
the first successful start call creates a Game row" and "every room has at
most one game whose status is not FINISHED". -/
theorem startGame_concurrent_double_create :
    startCheckPassed (startGameCheck traceS4 "AAAA" "H") = true ∧
    startRaceS2.games.length = 2 ∧
    (startRaceS2.activeGames "r1").length = 2 ∧
    ¬((startRaceS2.activeGames "r1").length ≤ 1) := by decide

/-- C4 (amended): under sequential (uninterleaved) execution the claim holds:
a requester without the host flag gets `NotHost` (403) and no Game row; a host
request while a non-FINISHED game exists gets `GameAlreadyActive` (409) with
the store untouched; and a single start call preserves the invariant that
every room has at most one non-FINISHED game.  Two interleaved calls can both
pass the active-game check (it runs outside the creating transaction) and both
create a game — see the counterexample. -/
theorem startGame_sequential_gates_and_invariant
    (s : Store) (roomCode hostSpotifyId newGameId : String) (room : Room)
    (hrc : roomCode ≠ "") (hhsp : hostSpotifyId ≠ "")
    (hroom : s.findRoom (jsToUpper roomCode) = some room) :
    (((s.roomPlayers room.id).find?
        (fun p => p.spotifyId == hostSpotifyId && p.isHost)) = none →
      startGame s roomCode hostSpotifyId newGameId = (.err .notHost, s) ∧
      StartErr.statusCode .notHost = 403) ∧
    (∀ hostP : RoomPlayer,
      ((s.roomPlayers room.id).find?
        (fun p => p.spotifyId == hostSpotifyId && p.isHost)) = some hostP →
      0 < (s.activeGames room.id).length →
      startGame s roomCode hostSpotifyId newGameId = (.err .gameAlreadyActive, s) ∧
      StartErr.statusCode .gameAlreadyActive = 409) ∧
    ((∀ rid, (s.activeGames rid).length ≤ 1) →
      ∀ rid, ((startGame s roomCode hostSpotifyId newGameId).2.activeGames rid).length ≤ 1) := by
  refine ⟨?_, ?_, ?_⟩
  · intro hnone
    refine ⟨startGame_of_check_error _ _ _ _ _ ?_, rfl⟩
    unfold startGameCheck
    rw [if_neg (by push_neg; exact ⟨hrc, hhsp⟩), hroom]
    simp only []
    rw [hnone]
    rw [if_pos (by simp)]
  · intro hostP hhost hact
    refine ⟨startGame_of_check_error _ _ _ _ _ ?_, rfl⟩
    unfold startGameCheck
    rw [if_neg (by push_neg; exact ⟨hrc, hhsp⟩), hroom]
    simp only []
    rw [hhost]
    rw [if_neg (by simp), if_pos hact]
  · intro hinv rid
    cases hchk : startGameCheck s roomCode hostSpotifyId with
    | error e =>
      rw [startGame_of_check_error _ _ _ _ _ hchk]
      exact hinv rid
    | ok rs =>
      obtain ⟨room₁, snap⟩ := rs
      rw [startGame_of_check_ok _ _ _ _ _ _ hchk]
      obtain ⟨hfr₁, hsnap, hzero⟩ := startGameCheck_ok_inv _ _ _ _ _ hchk
      by_cases hrid : rid = room₁.id
      · subst hrid
        have hb := (startGameCommit_activeGames s room₁ snap newGameId room₁.id).1
        omega
      · rw [(startGameCommit_activeGames s room₁ snap newGameId rid).2 hrid]
        exact hinv rid

/-- C4 witness: on the ready two-player room, the invariant-preservation and
gate parts of the sequential theorem, applied concretely: a non-host start is
refused with `NotHost`, and a start on the in-game store (active game present)
is refused with `GameAlreadyActive`. -/
theorem startGame_sequential_gates_witness :
    ((traceS4.roomPlayers "r1").find? (fun p => p.spotifyId == "P" && p.isHost)) =
      none ∧
    startGame traceS4 "AAAA" "P" "g9" = (.err .notHost, traceS4) ∧
    ((traceS5.roomPlayers "r1").find? (fun p => p.spotifyId == "H" && p.isHost)) =
      some { id := "pH", roomId := "r1", spotifyId := "H", displayName := "Host",
             imageUrl := none, isHost := true, isReady := true, musicData := some "mh",
             reconnectionToken := none, deviceId := none, lastActiveAt := 0 } ∧
    0 < (traceS5.activeGames "r1").length ∧
    startGame traceS5 "AAAA" "H" "g9" = (.err .gameAlreadyActive, traceS5) := by
  have htr4 : traceS4.findRoom (jsToUpper "AAAA") = some
      { id := "r1", code := "AAAA", hostId := "H", status := .WAITING,
        isActive := true, maxPlayers := 8, questionsCount := none } := by decide
  have htr5 : traceS5.findRoom (jsToUpper "AAAA") = some
      { id := "r1", code := "AAAA", hostId := "H", status := .IN_GAME,
        isActive := true, maxPlayers := 8, questionsCount := none } := by decide
  refine ⟨by decide, ?_, by decide, by decide, ?_⟩
  · exact ((startGame_sequential_gates_and_invariant traceS4 "AAAA" "P" "g9"
      { id := "r1", code := "AAAA", hostId := "H", status := .WAITING,
        isActive := true, maxPlayers := 8, questionsCount := none }
      (by decide) (by decide) htr4).1 (by decide)).1
  · exact ((startGame_sequential_gates_and_invariant traceS5 "AAAA" "H" "g9"
      { id := "r1", code := "AAAA", hostId := "H", status := .IN_GAME,
        isActive := true, maxPlayers := 8, questionsCount := none }
      (by decide) (by decide) htr5).2.1
      { id := "pH", roomId := "r1", spotifyId := "H", displayName := "Host",
        imageUrl := none, isHost := true, isReady := true, musicData := some "mh",
        reconnectionToken := none, deviceId := none, lastActiveAt := 0 }
      (by decide) (by decide)).1

/-! ## C7: room-code generation — validity, bounded retry, 503 surfacing -/

/-- Every character the generator draws is one of the 26 uppercase letters. -/
theorem roomCodeChar_mem : ∀ i : Fin 26, roomCodeChar i ∈ roomCodeChars := by decide

/-- The generator's alphabet consists of uppercase alphabetic characters. -/
theorem roomCodeChars_upper_alpha :
    ∀ ch ∈ roomCodeChars, ch.isUpper = true ∧ ch.isAlpha = true := by decide

/-- A generated code always has exactly 4 characters. -/
theorem genCode_length (rand : Nat → Fin 26) (n : Nat) : (genCode rand n).length = 4 :=
  rfl

/-- Every character of a generated code is in the generator's alphabet. -/
theorem genCode_chars (rand : Nat → Fin 26) (n : Nat) :
    ∀ ch ∈ (genCode rand n).toList, ch ∈ roomCodeChars := by
  intro ch hch
  have hl : (genCode rand n).toList =
      (List.range 4).map (fun i => roomCodeChar (rand (4 * n + i))) := rfl
  rw [hl] at hch
  obtain ⟨i, _, rfl⟩ := List.mem_map.mp hch
  exact roomCodeChar_mem _

/-- A code returned by the retry loop is one of the generated candidates and is
free in the store. -/
theorem generateUniqueRoomCodeAux_some (existing : List String) (rand : Nat → Fin 26) :
    ∀ fuel attempt c, generateUniqueRoomCodeAux existing rand fuel attempt = some c →
      (∃ n, c = genCode rand n) ∧ existing.contains c = false := by
  intro fuel
  induction fuel with
  | zero => intro attempt c h; simp [generateUniqueRoomCodeAux] at h
  | succ k ih =>
    intro attempt c h
    unfold generateUniqueRoomCodeAux at h
    by_cases hc : existing.contains (genCode rand attempt) = true
    · rw [if_pos hc] at h
      exact ih _ _ h
    · rw [if_neg hc] at h
      have hceq := Option.some.inj h
      subst hceq
      exact ⟨⟨attempt, rfl⟩, by simpa using hc⟩

/-- When every candidate collides, the retry loop gives up (returns `none`)
once its fuel is spent — it does not loop forever. -/
theorem generateUniqueRoomCodeAux_exhaust (existing : List String)
    (rand : Nat → Fin 26)
    (hall : ∀ n, existing.contains (genCode rand n) = true) :
    ∀ fuel attempt, generateUniqueRoomCodeAux existing rand fuel attempt = none := by
  intro fuel
  induction fuel with
  | zero => intro attempt; rfl
  | succ k ih =>
    intro attempt
    unfold generateUniqueRoomCodeAux
    rw [if_pos (hall attempt)]
    exact ih _

/-- C7: room-code generation always returns a 4-character uppercase alphabetic
code not currently assigned to any room; when the store reports a collision on
every attempt, the (fuelled, hence terminating) loop fails after the bounded
retry count of 50 attempts instead of looping forever, and the create-room
handler surfaces that failure as the retryable 503 service-unavailable
response with the store untouched. -/
theorem roomCodeGeneration_valid_and_bounded :
    (∀ (existing : List String) (rand : Nat → Fin 26) (c : String),
      generateUniqueRoomCode existing rand = some c →
      c.length = 4 ∧
      (∀ ch ∈ c.toList, ch ∈ roomCodeChars ∧ ch.isUpper = true ∧ ch.isAlpha = true) ∧
      existing.contains c = false) ∧
    maxAttempts = 50 ∧
    (∀ (existing : List String) (rand : Nat → Fin 26),
      (∀ n, existing.contains (genCode rand n) = true) →
      generateUniqueRoomCode existing rand = none) ∧
    (∀ (s : Store) (spotifyId displayName : String) (imageUrl : Option String)
        (rand : Nat → Fin 26) (newRoomId newPlayerId : String),
      spotifyId ≠ "" → displayName ≠ "" →
      (∀ n, (s.rooms.map (fun r => r.code)).contains (genCode rand n) = true) →
      createRoom s spotifyId displayName imageUrl rand newRoomId newPlayerId =
        (.codeGenerationExhausted, s) ∧
      CreateRes.statusCode .codeGenerationExhausted = 503) := by
  refine ⟨?_, rfl, ?_, ?_⟩
  · intro existing rand c h
    obtain ⟨⟨n, rfl⟩, hfree⟩ :=
      generateUniqueRoomCodeAux_some existing rand maxAttempts 0 _ h
    refine ⟨genCode_length rand n, ?_, hfree⟩
    intro ch hch
    have hm := genCode_chars rand n ch hch
    exact ⟨hm, (roomCodeChars_upper_alpha ch hm).1, (roomCodeChars_upper_alpha ch hm).2⟩
  · intro existing rand hall
    exact generateUniqueRoomCodeAux_exhaust existing rand hall maxAttempts 0
  · intro s sp dn img rand rid pid hsp hdn hall
    refine ⟨?_, rfl⟩
    unfold createRoom
    rw [if_neg (by push_neg; exact ⟨hsp, hdn⟩)]
    have hnone : generateUniqueRoomCode (s.rooms.map (fun r => r.code)) rand = none :=
      generateUniqueRoomCodeAux_exhaust _ rand hall maxAttempts 0
    rw [hnone]

/-- C7 witness: with the store holding room code `AAAA` and a degenerate random
stream that always draws `AAAA`, every attempt collides, the generator returns
`none`, and the create-room handler fails with the retryable 503 leaving the
store unchanged. -/
theorem roomCodeGeneration_valid_and_bounded_witness :
    (∀ n, (["AAAA"] : List String).contains (genCode rand0 n) = true) ∧
    generateUniqueRoomCode ["AAAA"] rand0 = none ∧
    (∀ n, (traceS1.rooms.map (fun r => r.code)).contains (genCode rand0 n) = true) ∧
    createRoom traceS1 "G" "Guest" none rand0 "r2" "p2" =
      (.codeGenerationExhausted, traceS1) := by
  have hgen : ∀ n, genCode rand0 n = "AAAA" := fun n => rfl
  refine ⟨fun n => by rw [hgen n]; decide, ?_, fun n => by rw [hgen n]; decide, ?_⟩
  · exact roomCodeGeneration_valid_and_bounded.2.2.1 ["AAAA"] rand0
      (fun n => by rw [hgen n]; decide)
  · exact (roomCodeGeneration_valid_and_bounded.2.2.2 traceS1 "G" "Guest" none rand0
      "r2" "p2" (by decide) (by decide) (fun n => by rw [hgen n]; decide)).1

/-! ## C6: reconnection acceptance condition -/

/-- C6 (spec-modelled server side): against a membership storing identity
`msp`, token `tok`, device `dev` and last-active time `t`, a reconnection
request is accepted if and only if the supplied identity, token and device all
exactly match and the last-active timestamp is within the 30-minute window; a
mismatch in any one of the three fields yields `InvalidCredentials`, and a
matching but stale attempt yields `ReconnectionExpired`.  The client side
(`attemptReconnection`, from src) emits the stored credentials exactly when
the stored last-active time is within the same window. -/
theorem reconnection_accept_iff
    (msp tok dev : String) (t : Nat) (sp tok₂ dev₂ : String) (now : Nat) :
    ((handleReconnect (reconnectProbeStore msp tok dev t) "ROOM" sp tok₂ dev₂ now).1 =
        .accepted "m1" ↔
      (sp = msp ∧ tok₂ = tok ∧ dev₂ = dev ∧ now - t ≤ reconnectionMaxAge)) ∧
    ((sp ≠ msp ∨ tok₂ ≠ tok ∨ dev₂ ≠ dev) →
      (handleReconnect (reconnectProbeStore msp tok dev t) "ROOM" sp tok₂ dev₂ now).1 =
        .invalidCredentials) ∧
    (sp = msp → tok₂ = tok → dev₂ = dev → reconnectionMaxAge < now - t →
      (handleReconnect (reconnectProbeStore msp tok dev t) "ROOM" sp tok₂ dev₂ now).1 =
        .reconnectionExpired) ∧
    (∀ (info : ReconnectionInfo) (now₂ : Nat),
      ((attemptReconnection (some info) now₂).1 = true ↔
        now₂ - info.lastActiveAt ≤ reconnectionMaxAge)) := by
  have key : (handleReconnect (reconnectProbeStore msp tok dev t) "ROOM" sp tok₂ dev₂
        now).1 =
      if sp = msp then
        (if tok₂ = tok ∧ dev₂ = dev then
          (if reconnectionMaxAge < now - t then .reconnectionExpired
           else .accepted "m1")
         else .invalidCredentials)
      else .invalidCredentials := by
    have hup : jsToUpper "ROOM" = "ROOM" := rfl
    by_cases hsp : sp = msp
    · subst hsp
      by_cases htok : tok₂ = tok
      · subst htok
        by_cases hdev : dev₂ = dev
        · subst hdev
          by_cases hfresh : reconnectionMaxAge < now - t <;>
            simp [handleReconnect, reconnectProbeStore, Store.findRoom,
              Store.roomPlayers, hup, hfresh]
        · simp [handleReconnect, reconnectProbeStore, Store.findRoom,
            Store.roomPlayers, hup, hdev, Ne.symm hdev]
      · simp [handleReconnect, reconnectProbeStore, Store.findRoom,
          Store.roomPlayers, hup, htok, Ne.symm htok]
    · simp [handleReconnect, reconnectProbeStore, Store.findRoom,
        Store.roomPlayers, hup, hsp, Ne.symm hsp]
  refine ⟨?_, ?_, ?_, ?_⟩
  · rw [key]
    by_cases hsp : sp = msp
    · by_cases htok : tok₂ = tok
      · by_cases hdev : dev₂ = dev
        · by_cases hfresh : reconnectionMaxAge < now - t
          · simp [hsp, htok, hdev, hfresh]
            omega
          · simp [hsp, htok, hdev, hfresh]
            omega
        · simp [hsp, htok, hdev]
      · simp [hsp, htok]
    · simp [hsp]
  · intro hmis
    rw [key]
    rcases hmis with h | h | h
    · rw [if_neg h]
    · by_cases hsp : sp = msp
      · rw [if_pos hsp, if_neg (fun hc => h hc.1)]
      · rw [if_neg hsp]
    · by_cases hsp : sp = msp
      · rw [if_pos hsp, if_neg (fun hc => h hc.2)]
      · rw [if_neg hsp]
  · intro hsp htok hdev hfresh
    rw [key, if_pos hsp, if_pos ⟨htok, hdev⟩, if_pos hfresh]
  · intro info now₂
    by_cases h : reconnectionMaxAge < now₂ - info.lastActiveAt <;>
      simp [attemptReconnection, h] <;> omega

/-- C6 witness: the acceptance condition applied at concrete inputs — a full
match within the window is accepted; changing the device fingerprint alone is
rejected with `InvalidCredentials`; a full match past the window is rejected
with `ReconnectionExpired`. -/
theorem reconnection_accept_iff_witness :
    (handleReconnect (reconnectProbeStore "S" "T" "D" 1000) "ROOM" "S" "T" "D" 2000).1 =
      .accepted "m1" ∧
    (("S" : String) ≠ "S" ∨ ("T" : String) ≠ "T" ∨ ("X" : String) ≠ "D") ∧
    (handleReconnect (reconnectProbeStore "S" "T" "D" 1000) "ROOM" "S" "T" "X" 2000).1 =
      .invalidCredentials ∧
    reconnectionMaxAge < 2000000 - 1000 ∧
    (handleReconnect (reconnectProbeStore "S" "T" "D" 1000) "ROOM" "S" "T" "D"
        2000000).1 = .reconnectionExpired :=
  ⟨(reconnection_accept_iff "S" "T" "D" 1000 "S" "T" "D" 2000).1.mpr
      ⟨rfl, rfl, rfl, by decide⟩,
    by decide,
    (reconnection_accept_iff "S" "T" "D" 1000 "S" "T" "X" 2000).2.1
      (by decide),
    by decide,
    (reconnection_accept_iff "S" "T" "D" 1000 "S" "T" "D" 2000000).2.2.1
      rfl rfl rfl (by decide)⟩

/-! ## C1: duplicate answers — application-level check, store-level constraint -/

/-- C1 counterexample: two submissions for the same (game, player, question)
interleave — both run the application-level duplicate check
(`gameAnswer.findUnique`) on `sampleStore`, where no answer row exists, before
either insert; both checks pass.  The first insert succeeds; the second is
rejected by the store's unique constraint, which the handler's catch block
surfaces as the generic 500, NOT as the 409 `DuplicateAnswer`.  So the claim's
assertion that the duplicate failure is produced by the store constraint
(rather than the check-then-insert) — and, with it, the spec's "exactly one
success and one DuplicateAnswer failure" for concurrent duplicates — is false
at this input.  (No second row is inserted: the constraint does hold the
at-most-one-row invariant.) -/
theorem submitAnswer_race_counterexample :
    submitCheckPassed (submitAnswerCheck sampleStore "g1" "P" 1) = true ∧
    (submitAnswerResume sampleStore (submitAnswerCheck sampleStore "g1" "P" 1)
        "g1" 1 2 (some 5) "a1").1 = .success "a1" ∧
    answerRaceStep2.1 = .err .internalError ∧
    answerRaceStep2.1 ≠ .err .duplicateAnswer ∧
    SubmitErr.statusCode .internalError = 500 ∧
    answerRaceStep2.2 = answerRaceS1 := by decide

/-- Inserting against the store-level unique constraint preserves the
at-most-one-answer-row-per-triple invariant. -/
theorem insertGameAnswer_preserves_unique (s₀ : Store) (a : GameAnswer) (s₁ : Store)
    (huniq : AnswersUnique s₀) (hins : insertGameAnswer s₀ a = some s₁) :
    AnswersUnique s₁ := by
  unfold insertGameAnswer at hins
  by_cases hfound : (s₀.findAnswer a.gameId a.playerId a.questionNumber).isSome = true
  · rw [if_pos hfound] at hins
    exact absurd hins (by simp)
  · rw [if_neg hfound] at hins
    have hs₁ := Option.some.inj hins
    subst hs₁
    intro gid₂ pid₂ q₂
    show (List.filter _ (s₀.answers ++ [a])).length ≤ 1
    rw [List.filter_append]
    by_cases hmatch : gid₂ = a.gameId ∧ pid₂ = a.playerId ∧ q₂ = a.questionNumber
    · obtain ⟨rfl, rfl, rfl⟩ := hmatch
      have hnone : s₀.answers.find? (fun b =>
          b.gameId == a.gameId && b.playerId == a.playerId &&
            b.questionNumber == a.questionNumber) = none := by
        cases hfa : s₀.findAnswer a.gameId a.playerId a.questionNumber with
        | none => exact hfa
        | some b => rw [hfa] at hfound; simp at hfound
      have hempty : s₀.answers.filter (fun b =>
          b.gameId == a.gameId && b.playerId == a.playerId &&
            b.questionNumber == a.questionNumber) = [] := by
        rw [List.filter_eq_nil_iff]
        exact List.find?_eq_none.mp hnone
      rw [hempty]
      simp only [List.nil_append]
      exact List.length_filter_le _ _
    · have hsingle : List.filter (fun b : GameAnswer =>
          b.gameId == gid₂ && b.playerId == pid₂ && b.questionNumber == q₂) [a] =
          [] := by
        rw [List.filter_eq_nil_iff]
        intro b hb
        simp only [List.mem_singleton] at hb
        subst hb
        simp only [Bool.and_eq_true, beq_iff_eq, not_and]
        intro h1 h2
        exact hmatch ⟨h1.1.symm, h1.2.symm, h2.symm⟩
      rw [hsingle, List.append_nil]
      exact huniq gid₂ pid₂ q₂

/-- C1 (amended): when an answer row for (game, player, question) already
exists at check time, submitAnswer fails with the 409 `DuplicateAnswer` and
inserts nothing (the store is returned unchanged) — this rejection comes from
the application-level check-then-insert; independently, the store-level unique
constraint guarantees that the write phase preserves the at-most-one-row-per-
triple invariant whatever (possibly stale) check result it is resumed with, so
at most one answer row ever exists per triple even under interleaving — but
the raced loser surfaces as a 500, not a 409 (see the counterexample). -/
theorem submitAnswer_duplicate_check_and_store_uniqueness
    (s : Store) (gameId spotifyId : String) (questionNumber : Nat)
    (selectedAnswer : Int) (responseTime : Option Nat) (newAnswerId : String)
    (game : Game) (player : RoomPlayer) (a₀ : GameAnswer)
    (hg : s.findGame gameId = some game) (hstat : game.status = .IN_PROGRESS)
    (hp : (s.roomPlayers game.roomId).find? (fun p => p.spotifyId == spotifyId) =
      some player)
    (hdup : s.findAnswer gameId player.id questionNumber = some a₀) :
    submitAnswer s gameId spotifyId questionNumber selectedAnswer responseTime
      newAnswerId = (.err .duplicateAnswer, s) ∧
    SubmitErr.statusCode .duplicateAnswer = 409 ∧
    (∀ (s₀ : Store) (checkRes : Except SubmitErr RoomPlayer) (gid : String)
        (q : Nat) (sel : Int) (rt : Option Nat) (aid : String),
      AnswersUnique s₀ →
      AnswersUnique (submitAnswerResume s₀ checkRes gid q sel rt aid).2) := by
  refine ⟨?_, rfl, ?_⟩
  · have hchk : submitAnswerCheck s gameId spotifyId questionNumber =
        .error .duplicateAnswer := by
      unfold submitAnswerCheck
      rw [hg]
      simp only []
      rw [if_neg (by simp [hstat]), hp]
      simp only []
      rw [hdup]
    unfold submitAnswer
    rw [hchk]
    rfl
  · intro s₀ checkRes gid q sel rt aid huniq
    cases checkRes with
    | error e => exact huniq
    | ok pl =>
      unfold submitAnswerResume
      simp only []
      split
      · rename_i s₁ hins
        exact insertGameAnswer_preserves_unique s₀ _ s₁ huniq hins
      · exact huniq

/-- C1 witness: with an answer row already present for the guest on question 1,
a second submission is rejected with 409 and the store is unchanged. -/
theorem submitAnswer_duplicate_witness :
    sampleStoreAnswered.findGame "g1" = some sampleGame ∧
    sampleGame.status = .IN_PROGRESS ∧
    (sampleStoreAnswered.roomPlayers sampleGame.roomId).find?
      (fun p => p.spotifyId == "P") = some sampleGuest ∧
    sampleStoreAnswered.findAnswer "g1" sampleGuest.id 1 = some
      { id := "a0", gameId := "g1", playerId := "pP", questionNumber := 1,
        selectedAnswer := 2, isCorrect := false, responseTime := 5 } ∧
    submitAnswer sampleStoreAnswered "g1" "P" 1 3 (some 7) "a9" =
      (.err .duplicateAnswer, sampleStoreAnswered) :=
  ⟨by decide, by decide, by decide, by decide,
    (submitAnswer_duplicate_check_and_store_uniqueness sampleStoreAnswered "g1" "P" 1 3
      (some 7) "a9" sampleGame sampleGuest
      { id := "a0", gameId := "g1", playerId := "pP", questionNumber := 1,
        selectedAnswer := 2, isCorrect := false, responseTime := 5 }
      (by decide) (by decide) (by decide) (by decide)).1⟩

/-! ## C2: revealResults — additive per-player score updates -/

/-- The answer-marking fold touches only the answers table. -/
theorem markFold_fields (correctAnswer : Int) :
    ∀ (A : List GameAnswer) (s : Store),
      (A.foldl (fun acc b => markAnswer correctAnswer b acc) s).scores = s.scores ∧
      (A.foldl (fun acc b => markAnswer correctAnswer b acc) s).games = s.games ∧
      (A.foldl (fun acc b => markAnswer correctAnswer b acc) s).rooms = s.rooms ∧
      (A.foldl (fun acc b => markAnswer correctAnswer b acc) s).players = s.players := by
  intro A
  induction A with
  | nil => intro s; exact ⟨rfl, rfl, rfl, rfl⟩
  | cons b A ih =>
    intro s
    rw [List.foldl_cons]
    exact ih (markAnswer correctAnswer b s)

/-- A successful single score update bumps exactly the (game, player) row and
leaves every other lookup — and every other table — unchanged. -/
theorem updateScore_findScore (s : Store) (gid pid : String) (c : Bool) (s₁ : Store)
    (h : updateScore s gid pid c = some s₁) :
    s₁.findScore gid pid = (s.findScore gid pid).map (bumpScore c) ∧
    (∀ gid₂ pid₂, ¬(gid₂ = gid ∧ pid₂ = pid) →
      s₁.findScore gid₂ pid₂ = s.findScore gid₂ pid₂) ∧
    s₁.answers = s.answers ∧ s₁.games = s.games ∧ s₁.rooms = s.rooms ∧
    s₁.players = s.players := by
  unfold updateScore at h
  by_cases hf : (s.findScore gid pid).isSome = true
  · rw [if_pos hf] at h
    have hs₁ := Option.some.inj h
    subst hs₁
    have hpres : ∀ (gid₂ pid₂ : String) (sc : GameScore),
        (((if sc.gameId == gid && sc.playerId == pid then bumpScore c sc
          else sc).gameId == gid₂ &&
          (if sc.gameId == gid && sc.playerId == pid then bumpScore c sc
          else sc).playerId == pid₂)) =
        (sc.gameId == gid₂ && sc.playerId == pid₂) := by
      intro gid₂ pid₂ sc
      by_cases hsc : (sc.gameId == gid && sc.playerId == pid) = true
      · rw [if_pos hsc]
        rfl
      · rw [if_neg hsc]
    refine ⟨?_, ?_, rfl, rfl, rfl, rfl⟩
    · show (s.scores.map _).find? _ = _
      rw [find?_map_pres _ _ _ (hpres gid pid)]
      cases hfs : s.scores.find? (fun sc => sc.gameId == gid && sc.playerId == pid) with
      | none =>
        have : s.findScore gid pid = none := hfs
        rw [this] at hf
        simp at hf
      | some sc₀ =>
        have hpred := List.find?_some hfs
        have : s.findScore gid pid = some sc₀ := hfs
        rw [this, Option.map_some', Option.map_some']
        rw [if_pos hpred]
    · intro gid₂ pid₂ hne
      show (s.scores.map _).find? _ = _
      rw [find?_map_pres _ _ _ (hpres gid₂ pid₂)]
      cases hfs : s.scores.find?
          (fun sc => sc.gameId == gid₂ && sc.playerId == pid₂) with
      | none =>
        have : s.findScore gid₂ pid₂ = none := hfs
        rw [this, Option.map_none']
      | some sc₂ =>
        have hpred := List.find?_some hfs
        have hne₂ : (sc₂.gameId == gid && sc₂.playerId == pid) = false := by
          simp only [Bool.and_eq_true, beq_iff_eq] at hpred
          by_cases hx : (sc₂.gameId == gid && sc₂.playerId == pid) = true
          · simp only [Bool.and_eq_true, beq_iff_eq] at hx
            exact absurd ⟨hpred.1 ▸ hx.1, hpred.2 ▸ hx.2⟩ hne
          · simpa using hx
        have : s.findScore gid₂ pid₂ = some sc₂ := hfs
        rw [this, Option.map_some']
        rw [if_neg (by simp [hne₂])]
  · rw [if_neg hf] at h
    exact absurd h (by simp)

/-- Folding the per-answer score updates over a list of answers with pairwise
distinct players succeeds (given each row exists), bumps exactly the rows of
the answering players, and leaves every other score lookup and every other
table unchanged. -/
theorem foldlM_updateScore (gid : String) (corr : GameAnswer → Bool) :
    ∀ (A : List GameAnswer) (s : Store),
      (∀ a ∈ A, (s.findScore gid a.playerId).isSome = true) →
      (A.map (fun a => a.playerId)).Nodup →
      ∃ s₂, A.foldlM (fun acc a => updateScore acc gid a.playerId (corr a)) s =
          some s₂ ∧
        (∀ a ∈ A, s₂.findScore gid a.playerId =
          (s.findScore gid a.playerId).map (bumpScore (corr a))) ∧
        (∀ pid, (∀ a ∈ A, a.playerId ≠ pid) →
          s₂.findScore gid pid = s.findScore gid pid) ∧
        (∀ gid₂ pid₂, gid₂ ≠ gid → s₂.findScore gid₂ pid₂ = s.findScore gid₂ pid₂) ∧
        s₂.answers = s.answers ∧ s₂.games = s.games ∧ s₂.rooms = s.rooms ∧
        s₂.players = s.players := by
  intro A
  induction A with
  | nil =>
    intro s _ _
    exact ⟨s, rfl, by simp, fun _ _ => rfl, fun _ _ _ => rfl, rfl, rfl, rfl, rfl⟩
  | cons a A ih =>
    intro s hsome hnodup
    simp only [List.map_cons, List.nodup_cons] at hnodup
    obtain ⟨hnotin, hnd⟩ := hnodup
    have hfa : (s.findScore gid a.playerId).isSome = true := hsome a (.head _)
    have hstep : ∃ s₁, updateScore s gid a.playerId (corr a) = some s₁ := by
      unfold updateScore
      rw [if_pos hfa]
      exact ⟨_, rfl⟩
    obtain ⟨s₁, hstep⟩ := hstep
    obtain ⟨hu1, hu2, huA, huG, huR, huP⟩ :=
      updateScore_findScore s gid a.playerId (corr a) s₁ hstep
    have hne : ∀ b ∈ A, b.playerId ≠ a.playerId := by
      intro b hb hbe
      exact hnotin (hbe ▸ List.mem_map_of_mem (fun x => x.playerId) hb)
    have hsome₁ : ∀ b ∈ A, (s₁.findScore gid b.playerId).isSome = true := by
      intro b hb
      rw [hu2 gid b.playerId (fun hc => hne b hb hc.2)]
      exact hsome b (List.mem_cons_of_mem a hb)
    obtain ⟨s₂, hfold, hbump, hunt, hgid₂, hA, hG, hR, hP⟩ := ih s₁ hsome₁ hnd
    refine ⟨s₂, ?_, ?_, ?_, ?_, ?_, ?_, ?_, ?_⟩
    · rw [List.foldlM_cons, hstep]
      simpa using hfold
    · intro b hb
      rcases List.mem_cons.mp hb with rfl | hbA
      · rw [hunt b.playerId (fun x hx => hne x hx), hu1]
      · rw [hbump b hbA, hu2 gid b.playerId (fun hc => hne b hbA hc.2)]
    · intro pid hpid
      rw [hunt pid (fun x hx => hpid x (List.mem_cons_of_mem a hx)),
        hu2 gid pid (fun hc => hpid a (List.mem_cons_self a A) hc.2.symm)]
    · intro gid₂ pid₂ hg₂
      rw [hgid₂ gid₂ pid₂ hg₂, hu2 gid₂ pid₂ (fun hc => hg₂ hc.1)]
    · rw [hA, huA]
    · rw [hG, huG]
    · rw [hR, huR]
    · rw [hP, huP]

/-- C2: for every revealResults call on a question (game found, requester is
the host, every answering player has a score row, answering players pairwise
distinct): the call succeeds, each player who had submitted an answer to that
question has their score row become the prior row with total increased by the
flat 100 points exactly when their selected answer equals the supplied key
(plus 0 otherwise), correct-count incremented exactly when correct, and
total-answers-count incremented by one; and every player who did not submit an
answer to that question has their score row unchanged by the reveal. -/
theorem revealResults_additive_scores
    (s : Store) (gameId hostSpotifyId : String) (q : Nat) (correctAnswer : Int)
    (game : Game)
    (hg : s.findGame gameId = some game)
    (hhost : ((s.roomPlayers game.roomId).find?
      (fun p => p.spotifyId == hostSpotifyId && p.isHost)).isSome = true)
    (hscores : ∀ a ∈ s.gameAnswers gameId q,
      (s.findScore gameId a.playerId).isSome = true)
    (hnodup : ((s.gameAnswers gameId q).map (fun a => a.playerId)).Nodup) :
    (revealResults s gameId hostSpotifyId q correctAnswer).1 = .success ∧
    (∀ a ∈ s.gameAnswers gameId q, ∀ sc : GameScore,
      s.findScore gameId a.playerId = some sc →
      (revealResults s gameId hostSpotifyId q correctAnswer).2.findScore gameId
          a.playerId =
        some { sc with
          totalScore := sc.totalScore +
            (if a.selectedAnswer = correctAnswer then 100 else 0),
          correctAnswers := sc.correctAnswers +
            (if a.selectedAnswer = correctAnswer then 1 else 0),
          totalAnswers := sc.totalAnswers + 1 }) ∧
    (∀ pid, (∀ a ∈ s.gameAnswers gameId q, a.playerId ≠ pid) →
      (revealResults s gameId hostSpotifyId q correctAnswer).2.findScore gameId pid =
        s.findScore gameId pid) := by
  obtain ⟨hostP, hfh⟩ := Option.isSome_iff_exists.mp hhost
  have hsc_eq : ∀ gid₂ pid₂, Store.findScore
      ((s.gameAnswers gameId q).foldl (fun acc b => markAnswer correctAnswer b acc) s)
      gid₂ pid₂ = s.findScore gid₂ pid₂ := by
    intro gid₂ pid₂
    unfold Store.findScore
    rw [(markFold_fields correctAnswer (s.gameAnswers gameId q) s).1]
  have hsomes : ∀ a ∈ s.gameAnswers gameId q,
      (Store.findScore
        ((s.gameAnswers gameId q).foldl (fun acc b => markAnswer correctAnswer b acc) s)
        gameId a.playerId).isSome = true := by
    intro a ha
    rw [hsc_eq]
    exact hscores a ha
  obtain ⟨s₂, hfold, hbump, hunt, hgid₂, hsA, hsG, hsR, hsP⟩ :=
    foldlM_updateScore gameId (fun a => a.selectedAnswer == correctAnswer)
      (s.gameAnswers gameId q)
      ((s.gameAnswers gameId q).foldl (fun acc b => markAnswer correctAnswer b acc) s)
      hsomes hnodup
  have hrev : revealResults s gameId hostSpotifyId q correctAnswer =
      (.success, { s₂ with games := s₂.games.map (fun g =>
        if g.id == gameId then { g with currentQuestion := q } else g) }) := by
    unfold revealResults
    rw [hg]
    simp only []
    rw [hfh]
    rw [if_neg (by simp)]
    unfold revealCommit
    simp only []
    rw [hfold]
    rfl
  rw [hrev]
  refine ⟨rfl, ?_, ?_⟩
  · intro a ha sc hsc
    show s₂.findScore gameId a.playerId = _
    rw [hbump a ha, hsc_eq, hsc]
    by_cases hca : a.selectedAnswer = correctAnswer <;> simp [bumpScore, hca]
  · intro pid hpid
    show s₂.findScore gameId pid = _
    rw [hunt pid hpid, hsc_eq]

/-- C2 witness: the score-update theorem applied to the store with one answer
row (guest answered question 1). -/
theorem revealResults_additive_scores_witness :
    sampleStoreAnswered.findGame "g1" = some sampleGame ∧
    ((sampleStoreAnswered.roomPlayers sampleGame.roomId).find?
      (fun p => p.spotifyId == "H" && p.isHost)).isSome = true ∧
    (∀ a ∈ sampleStoreAnswered.gameAnswers "g1" 1,
      (sampleStoreAnswered.findScore "g1" a.playerId).isSome = true) ∧
    ((sampleStoreAnswered.gameAnswers "g1" 1).map (fun a => a.playerId)).Nodup ∧
    (revealResults sampleStoreAnswered "g1" "H" 1 2).1 = .success :=
  ⟨by decide, by decide, by decide, by decide,
    (revealResults_additive_scores sampleStoreAnswered "g1" "H" 1 2 sampleGame
      (by decide) (by decide) (by decide) (by decide)).1⟩

end SpotifyDash
